import Mathlib

/-!
Verification development for the ski-notifier weather ingestion and scoring
pipeline (`ski_notifier/fetch.py`, `ski_notifier/score.py`).

Modelling conventions:
* Python floats are modelled as exact rationals (`ℚ`); `round(x, 1)` is
  modelled as decimal rounding half-to-even (Python's rounding mode).
* Python `Optional[float]` becomes `Option ℚ`; `None` becomes `none`.
* Python dicts are modelled as association lists in insertion order, with
  dict-update semantics made explicit (`insertAdd`, `updateAssoc`).
* `zoneinfo.ZoneInfo("Europe/Berlin")` is modelled by the IANA tzdata rules
  for Europe/Berlin in the era of the EU daylight-saving directive (in force
  since 1996 and projected forward indefinitely by tzdata): UTC+1 (CET)
  normally, UTC+2 (CEST) between 01:00 UTC on the last Sunday of March and
  01:00 UTC on the last Sunday of October.
-/

namespace SkiNotifier

/-- Decimal rounding half-to-even of a rational to an integer, mirroring
Python's `round` tie-breaking. -/
def roundHalfEven (q : ℚ) : ℤ :=
  let f := ⌊q⌋
  let r := q - (f : ℚ)
  if r < 1/2 then f
  else if 1/2 < r then f + 1
  else if f % 2 = 0 then f else f + 1

/-- Model of Python `round(x, 1)`: round to one decimal place. -/
def round1 (q : ℚ) : ℚ := (roundHalfEven (q * 10) : ℚ) / 10

/-- `score.py`: `clamp(value, min_val, max_val)` =
`max(min_val, min(max_val, value))`. -/
def clamp (value min_val max_val : ℚ) : ℚ := max min_val (min max_val value)

/-- `fetch.py`: `_convert_to_cm(value, unit)` — convert snow values to cm
based on the unit reported by the API. -/
def convert_to_cm (value : Option ℚ) (unit : String) : Option ℚ :=
  match value with
  | none => none
  | some v =>
    if unit = "m" then some (v * 100)
    else if unit = "cm" then some v
    else if unit = "mm" then some (v / 10)
    else some v

/-- A proleptic-Gregorian calendar date (Python `datetime.date`). -/
structure CivilDate where
  year : Int
  month : Int
  day : Int
deriving DecidableEq, Repr

/-- `fetch.py` dataclass `PointWeather`: weather data for a single point on a
specific day. -/
structure PointWeather where
  date : CivilDate
  temp_c_avg_9_16 : Option ℚ
  wind_gust_kmh_max_9_16 : Option ℚ
  precip_mm_sum_9_16 : Option ℚ
  snow_depth_cm : Option ℚ
  snowfall_cm : Option ℚ
  snow24_to_9_cm : Option ℚ := none
  snow24_quality : String := "missing"
deriving DecidableEq, Repr

/-- Leap year in the proleptic Gregorian calendar. -/
def isLeapYear (y : Int) : Bool := (y % 4 = 0 && y % 100 ≠ 0) || y % 400 = 0

/-- Number of days in a month. -/
def daysInMonth (y m : Int) : Int :=
  if m = 2 then (if isLeapYear y then 29 else 28)
  else if m = 4 ∨ m = 6 ∨ m = 9 ∨ m = 11 then 30
  else 31

/-- A calendar date that `datetime.date` would accept. -/
def ValidDate (c : CivilDate) : Prop :=
  1 ≤ c.month ∧ c.month ≤ 12 ∧ 1 ≤ c.day ∧ c.day ≤ daysInMonth c.year c.month

instance (c : CivilDate) : Decidable (ValidDate c) := by
  unfold ValidDate; infer_instance

/-- Days since the Unix epoch 1970-01-01 of a civil date (the standard
era-based conversion used by `datetime.date.toordinal`, floor division). -/
def daysFromCivil (c : CivilDate) : Int :=
  let y := if c.month ≤ 2 then c.year - 1 else c.year
  let era := y / 400
  let yoe := y - era * 400
  let doy := (153 * (c.month + (if 2 < c.month then -3 else 9)) + 2) / 5 + c.day - 1
  let doe := yoe * 365 + yoe / 4 - yoe / 100 + doy
  era * 146097 + doe - 719468

/-- The calendar date one day earlier (what `date - timedelta(days=1)`, or
equivalently the wall-clock part of `datetime - timedelta(hours=24)`,
produces). -/
def prevDay (c : CivilDate) : CivilDate :=
  if 1 < c.day then ⟨c.year, c.month, c.day - 1⟩
  else if c.month = 1 then ⟨c.year - 1, 12, 31⟩
  else ⟨c.year, c.month - 1, daysInMonth c.year (c.month - 1)⟩

/-- Day of week of a day count since the epoch, with Sunday = 0
(1970-01-01 was a Thursday). -/
def weekdaySun0 (days : Int) : Int := (days + 4) % 7

/-- Day of month of the last Sunday of the given month (used with March and
October, both 31-day months). -/
def lastSunday (y m : Int) : Int := 31 - weekdaySun0 (daysFromCivil ⟨y, m, 31⟩)

/-- Whether Europe/Berlin is on summer time (CEST, UTC+2) at 09:00 local time
of the given date.  Models tzdata's Europe/Berlin under the EU rule: DST from
01:00 UTC on the last Sunday of March until 01:00 UTC on the last Sunday of
October; at 09:00 local time the switch of that same morning has already
happened, so the start date is included and the end date excluded. -/
def isDstAt9 (c : CivilDate) : Bool :=
  (decide (3 < c.month) || (decide (c.month = 3) && decide (lastSunday c.year 3 ≤ c.day))) &&
  (decide (c.month < 10) || (decide (c.month = 10) && decide (c.day < lastSunday c.year 10)))

/-- UTC offset (in hours) of Europe/Berlin at 09:00 local time of a date. -/
def berlinOffsetAt9 (c : CivilDate) : Int := if isDstAt9 c then 2 else 1

/-- Unix timestamp of 09:00 local Europe/Berlin on a date:
`int(datetime(y, m, d, 9, 0, tzinfo=ZoneInfo("Europe/Berlin")).timestamp())`. -/
def berlin9Unix (c : CivilDate) : Int :=
  daysFromCivil c * 86400 + (9 - berlinOffsetAt9 c) * 3600

/-- The `expected_unix` set of `compute_snow24_to_9`, as the list produced by
`t = start; while t < end: add(t); t += 3600`. -/
def expectedUnix (start_unix end_unix : Int) : List Int :=
  (List.range ((end_unix - start_unix + 3599).toNat / 3600)).map
    (fun k : Nat => start_unix + 3600 * (k : Int))

/-- Python dict read-modify-write `m[k] = m.get(k, 0.0) + v` on an
insertion-ordered association list. -/
def insertAdd (m : List (Int × ℚ)) (k : Int) (v : ℚ) : List (Int × ℚ) :=
  match m with
  | [] => [(k, v)]
  | (k', v') :: rest => if k' = k then (k', v' + v) :: rest else (k', v') :: insertAdd rest k v

/-- The unit validation step of `compute_snow24_to_9`: an unknown snowfall
unit is treated as `"cm"`. -/
def normalizeUnit (snowfall_unit : String) : String :=
  if snowfall_unit = "mm" ∨ snowfall_unit = "cm" ∨ snowfall_unit = "m" then snowfall_unit
  else "cm"

/-- Loop body of the `time_to_value` construction in `compute_snow24_to_9`:
normalize the timestamp to its hour boundary, and record the value if the
slot is expected and the value is not null. -/
def snowSampleStep (expected_unix : List Int) (m : List (Int × ℚ))
    (p : Int × Option ℚ) : List (Int × ℚ) :=
  let t := p.1 - p.1 % 3600
  match p.2 with
  | some v => if expected_unix.contains t then insertAdd m t v else m
  | none => m

/-- Spec formulation: the `(normalized time, raw value)` pairs of the input
that land in an expected slot with a non-null value — the samples that
`compute_snow24_to_9` actually accumulates. -/
def matchedPairs (expected : List Int) (l : List (Int × Option ℚ)) : List (Int × ℚ) :=
  l.filterMap fun p =>
    match p.2 with
    | some v =>
      if expected.contains (p.1 - p.1 % 3600) then some (p.1 - p.1 % 3600, v) else none
    | none => none

/-- Scalar form of `convert_to_cm` on a present value. -/
def convertScalar (unit : String) (x : ℚ) : ℚ :=
  if unit = "m" then x * 100
  else if unit = "cm" then x
  else if unit = "mm" then x / 10
  else x

/-- `fetch.py`: `compute_snow24_to_9(hourly_unix_times, hourly_snowfall,
target_day, snowfall_unit)` — snowfall sum for the 24 wall-clock hours ending
at 09:00 Europe/Berlin on `target_day`.  `end_dt` is 09:00 local on the
target day; `start_dt = end_dt - timedelta(hours=24)` is Python *wall-clock*
datetime arithmetic, i.e. 09:00 local on the previous calendar day. -/
def compute_snow24_to_9 (hourly_unix_times : List Int)
    (hourly_snowfall : List (Option ℚ)) (target_day : CivilDate)
    (snowfall_unit : String) : Option ℚ × String :=
  let end_unix := berlin9Unix target_day
  let start_unix := berlin9Unix (prevDay target_day)
  let expected_unix := expectedUnix start_unix end_unix
  let length_mismatch := hourly_unix_times.length ≠ hourly_snowfall.length
  let unit := normalizeUnit snowfall_unit
  -- Build unix -> value mapping over zip, summing duplicates
  let time_to_value :=
    (hourly_unix_times.zip hourly_snowfall).foldl (snowSampleStep expected_unix) []
  let missing_times :=
    expected_unix.filter (fun t => ¬ (time_to_value.map Prod.fst).contains t)
  let snow_values := time_to_value.map Prod.snd
  if snow_values.isEmpty then (none, "missing")
  else
    let total_cm := convert_to_cm (some snow_values.sum) unit
    let quality := if missing_times ≠ [] ∨ length_mismatch then "partial" else "ok"
    (total_cm.map round1, quality)

/-- `score.py` dataclass `PointScore`. -/
structure PointScore where
  score : ℚ
  has_snow_data : Bool
deriving DecidableEq, Repr

/-- `score.py` dataclass `ResortScore` (combined score for a resort day). -/
structure ResortScore where
  date : CivilDate
  score : ℚ
  confidence : ℚ
  score_low : PointScore
  score_high : PointScore
  weather_low : PointWeather
  weather_high : PointWeather
deriving DecidableEq, Repr

/-- `score.py`: `calculate_point_score(weather)`.  The sequential mutation of
`score`/`has_snow_data` in the source is rendered as a chain of rebindings in
source order. -/
def calculate_point_score (weather : PointWeather) : PointScore :=
  let score : ℚ := 50
  let has_snow_data := false
  -- Snow depth bonus
  let (score, has_snow_data) :=
    match weather.snow_depth_cm with
    | some d => (score + clamp d 0 60 * 0.6, true)
    | none => (score, has_snow_data)
  -- Fresh snow bonus: snow24_to_9_cm, falling back to deprecated snowfall_cm
  let snowfall_for_scoring :=
    match weather.snow24_to_9_cm with
    | some v => some v
    | none => weather.snowfall_cm
  let (score, has_snow_data) :=
    match snowfall_for_scoring with
    | some s => (score + clamp s 0 30 * 0.4, true)
    | none => (score, has_snow_data)
  -- Wind gust penalty
  let score :=
    match weather.wind_gust_kmh_max_9_16 with
    | some g => score - max 0 (g - 35) * 0.8
    | none => score
  -- Heavy precipitation penalty
  let score :=
    match weather.precip_mm_sum_9_16 with
    | some p => score - max 0 (p - 8) * 1.0
    | none => score
  -- Temperature penalties (warm and extreme cold)
  let score :=
    match weather.temp_c_avg_9_16 with
    | some t => score - (max 0 (t - 4) * 3.0 + max 0 (-t - 18) * 1.0)
    | none => score
  let score := clamp score 0 100
  { score := round1 score, has_snow_data := has_snow_data }

/-- `score.py`: `calculate_resort_score(weather_low, weather_high)`. -/
def calculate_resort_score (weather_low weather_high : PointWeather) : ResortScore :=
  let score_low := calculate_point_score weather_low
  let score_high := calculate_point_score weather_high
  let combined_score := 0.45 * score_low.score + 0.55 * score_high.score
  let confidence : ℚ :=
    if score_low.has_snow_data ∧ score_high.has_snow_data then 1.0
    else if score_low.has_snow_data ∨ score_high.has_snow_data then 0.7
    else 0.4
  { date := weather_low.date
    score := round1 combined_score
    confidence := confidence
    score_low := score_low
    score_high := score_high
    weather_low := weather_low
    weather_high := weather_high }

/-! ### Batch-fetch orchestration (`fetch.py` lines 390-585)

The HTTP layer and JSON parsing touch the network, so the orchestration is
embedded relative to an oracle: a list of `BatchOutcome`s, one per
`_fetch_batch` call, saying how the network behaved for that call.  Python
dicts are association lists in insertion order. -/

/-- `resorts.py` dataclass `Point` (coordinate fields). -/
structure Point where
  lat : ℚ
  lon : ℚ
  elevation_m : Option Int := none
  label : Option String := none
deriving DecidableEq, Repr

/-- `resorts.py` dataclass `Resort` (the fields the fetch pipeline reads;
cost and metadata fields are never read by `fetch.py` and are omitted). -/
structure Resort where
  id : String
  name : String
  point_low : Point
  point_high : Point
deriving DecidableEq, Repr

/-- `fetch.py` dataclass `BatchPoint`. -/
structure BatchPoint where
  resort_id : String
  point_type : String
  lat : ℚ
  lon : ℚ
  index : Nat := 0
deriving DecidableEq, Repr

/-- The weather records of one point: `Dict[date, PointWeather]`. -/
abbrev PointWeatherMap := List (CivilDate × PointWeather)

/-- `fetch.py` dataclass `ResortWeather`. -/
structure ResortWeather where
  low : PointWeatherMap
  high : PointWeatherMap
deriving DecidableEq, Repr

/-- `fetch.py` dataclass `FetchResult`. -/
structure FetchResult where
  weather : List (String × ResortWeather)
  failed_resorts : List String
  n_points_total : Nat
  n_points_success : Nat
  n_batches : Nat
deriving DecidableEq, Repr

/-- Outcome of handling one per-point payload of a batch response,
abstracting the raw JSON: `absent` is a falsy payload or one without an
`"hourly"` key; `parseError` is `_parse_point_weather_from_batch` raising;
`parsed w` is it returning the weather dict `w` (possibly empty). -/
inductive PayloadResult where
  | absent
  | parseError
  | parsed (w : PointWeatherMap)
deriving DecidableEq, Repr

/-- Outcome of the single `_http_get_with_retry` call of one `_fetch_batch`:
HTTP success with a normalized per-point payload list, `RuntimeError`
(retries exhausted or fatal non-retryable status), or `URLTooLongError`. -/
inductive BatchOutcome where
  | http (responses : List PayloadResult)
  | runtimeError
  | urlTooLong
deriving DecidableEq, Repr

def DEFAULT_BATCH_SIZE : Nat := 40

def FALLBACK_BATCH_SIZES : List Nat := [20, 10]

/-- Per-point body of the `_fetch_batch` response loop (lines 453-471):
payloads without usable data fail just that point; a parsed non-empty
weather dict succeeds. -/
def batchPairStep (acc : List (Nat × PointWeatherMap) × List Nat)
    (pr : BatchPoint × PayloadResult) : List (Nat × PointWeatherMap) × List Nat :=
  match pr.2 with
  | .absent => (acc.1, acc.2 ++ [pr.1.index])
  | .parseError => (acc.1, acc.2 ++ [pr.1.index])
  | .parsed w =>
    if w.isEmpty then (acc.1, acc.2 ++ [pr.1.index])
    else (acc.1 ++ [(pr.1.index, w)], acc.2)

/-- Response-processing part of `_fetch_batch` (lines 437-473): when the
response has fewer entries than requested points, pre-mark the trailing
points failed, then process `points[:len(responses)]` pairwise with their
payloads. -/
def fetchBatchProcess (points : List BatchPoint) (responses : List PayloadResult) :
    List (Nat × PointWeatherMap) × List Nat :=
  let failed0 := if responses.length < points.length
    then (points.drop responses.length).map (fun p => p.index) else []
  ((points.take responses.length).zip responses).foldl batchPairStep ([], failed0)

/-- `_fetch_batch` (lines 390-473): empty point list returns immediately;
`URLTooLongError` propagates to the caller (`.error`); `RuntimeError` is
caught and every point of the batch is marked failed; otherwise the payload
list is processed. -/
def fetchBatch (points : List BatchPoint) (o : BatchOutcome) :
    Except Unit (List (Nat × PointWeatherMap) × List Nat) :=
  if points.isEmpty then .ok ([], [])
  else
    match o with
    | .urlTooLong => .error ()
    | .runtimeError => .ok ([], points.map (fun p => p.index))
    | .http responses => .ok (fetchBatchProcess points responses)

/-- Mutable state of the batch loop of `fetch_all_resorts_weather`. -/
structure FetchLoopState where
  i : Nat
  batchSize : Nat
  allWeather : List (Nat × PointWeatherMap)
  allFailed : List Nat
  nBatches : Nat
deriving DecidableEq, Repr

/-- One iteration of the `while i < len(all_points)` loop (lines 517-543),
consuming one batch outcome: on success accumulate and advance; on
`URLTooLongError` shrink the batch size and retry the same range, or — if
already at the smallest size — mark the whole batch failed and advance. -/
def fetchStep (allPoints : List BatchPoint) (st : FetchLoopState) (o : BatchOutcome) :
    FetchLoopState :=
  let batch := (allPoints.drop st.i).take st.batchSize
  match fetchBatch batch o with
  | .ok (success_map, failed) =>
    { st with
      allWeather := st.allWeather ++ success_map
      allFailed := st.allFailed ++ failed
      nBatches := st.nBatches + 1
      i := st.i + batch.length }
  | .error _ =>
    if st.batchSize ∈ FALLBACK_BATCH_SIZES then
      if FALLBACK_BATCH_SIZES.indexOf st.batchSize + 1 < FALLBACK_BATCH_SIZES.length then
        { st with batchSize :=
            FALLBACK_BATCH_SIZES.getD (FALLBACK_BATCH_SIZES.indexOf st.batchSize + 1) 0 }
      else
        { st with
          allFailed := st.allFailed ++ batch.map (fun p => p.index)
          i := st.i + batch.length }
    else if st.batchSize = DEFAULT_BATCH_SIZE ∧ FALLBACK_BATCH_SIZES ≠ [] then
      { st with batchSize := FALLBACK_BATCH_SIZES.headD 0 }
    else
      { st with
        allFailed := st.allFailed ++ batch.map (fun p => p.index)
        i := st.i + batch.length }

/-- The batch loop, consuming oracle outcomes in order; it iterates while
`i < len(all_points)` and stops if the outcome trace is exhausted. -/
def fetchLoop (allPoints : List BatchPoint) :
    List BatchOutcome → FetchLoopState → FetchLoopState
  | [], st => st
  | o :: os, st =>
    if st.i < allPoints.length then fetchLoop allPoints os (fetchStep allPoints st o)
    else st

/-- Loop body of the point flattening (lines 491-505): append the low and
high points of one resort, each indexed by the list length at append time. -/
def allPointsStep (acc : List BatchPoint) (r : Resort) : List BatchPoint :=
  let acc' := acc ++ [{ resort_id := r.id, point_type := "low",
                        lat := r.point_low.lat, lon := r.point_low.lon,
                        index := acc.length }]
  acc' ++ [{ resort_id := r.id, point_type := "high",
             lat := r.point_high.lat, lon := r.point_high.lon,
             index := acc'.length }]

/-- Point flattening of `fetch_all_resorts_weather` (lines 489-505):
`[r0.low, r0.high, r1.low, r1.high, ...]`. -/
def allPointsOf (resorts : List Resort) : List BatchPoint :=
  resorts.foldl allPointsStep []

/-- Python dict assignment `m[k] = v` on an insertion-ordered association
list: overwrite in place, or append when the key is new. -/
def updateAssoc {β : Type} (m : List (String × β)) (k : String) (v : β) :
    List (String × β) :=
  match m with
  | [] => [(k, v)]
  | (k', v') :: rest => if k' = k then (k, v) :: rest else (k', v') :: updateAssoc rest k v

/-- Grouping loop (lines 551-560): `resort_weather_data[rid][ptype] = w` for
every fetched point, resolving each batch index through `index_to_point`.
(The `none` branch is unreachable in the pipeline: every recorded index
designates one of the flattened points; Python would raise `KeyError`.) -/
def groupWeatherByResort (allPoints : List BatchPoint)
    (allWeather : List (Nat × PointWeatherMap)) :
    List (String × List (String × PointWeatherMap)) :=
  allWeather.foldl
    (fun acc iw =>
      match allPoints.find? (fun p => p.index == iw.1) with
      | some p =>
        updateAssoc acc p.resort_id
          (updateAssoc ((List.lookup p.resort_id acc).getD []) p.point_type iw.2)
      | none => acc)
    []

/-- Body of the final-assembly loop (lines 563-574) for one resort. -/
def buildResortStep (grouped : List (String × List (String × PointWeatherMap)))
    (acc : List (String × ResortWeather) × List String) (r : Resort) :
    List (String × ResortWeather) × List String :=
  let resort_data := (List.lookup r.id grouped).getD []
  let low_weather := (List.lookup "low" resort_data).getD []
  let high_weather := (List.lookup "high" resort_data).getD []
  if low_weather.isEmpty ∧ high_weather.isEmpty then (acc.1, acc.2 ++ [r.id])
  else (acc.1 ++ [(r.id, { low := low_weather, high := high_weather })], acc.2)

/-- Final assembly (lines 562-585): a resort whose two points both ended up
with no weather goes to `failed_resorts`; otherwise a `ResortWeather` is
built from whatever sides are present. -/
def buildFetchResult (resorts : List Resort) (st : FetchLoopState) : FetchResult :=
  let allPoints := allPointsOf resorts
  let grouped := groupWeatherByResort allPoints st.allWeather
  let acc := resorts.foldl (buildResortStep grouped) ([], [])
  { weather := acc.1
    failed_resorts := acc.2
    n_points_total := allPoints.length
    n_points_success := st.allWeather.length
    n_batches := st.nBatches }

/-- `fetch_all_resorts_weather`, relative to the oracle trace of network
outcomes (one entry per `_fetch_batch` call). -/
def fetch_all_resorts_weather (resorts : List Resort) (outcomes : List BatchOutcome) :
    FetchResult :=
  let allPoints := allPointsOf resorts
  let final := fetchLoop allPoints outcomes
    { i := 0, batchSize := DEFAULT_BATCH_SIZE, allWeather := [], allFailed := [], nBatches := 0 }
  buildFetchResult resorts final

/-- Spec formulation of the flattening: batch points with indices starting
at `n`. -/
def flatPointsFrom (n : Nat) : List Resort → List BatchPoint
  | [] => []
  | r :: rs =>
    { resort_id := r.id, point_type := "low", lat := r.point_low.lat,
      lon := r.point_low.lon, index := n } ::
    { resort_id := r.id, point_type := "high", lat := r.point_high.lat,
      lon := r.point_high.lon, index := n + 1 } :: flatPointsFrom (n + 2) rs

/-- Spec formulation: the successful entries produced by processing a list
of (point, payload) pairs. -/
def batchSuccessesOf (l : List (BatchPoint × PayloadResult)) :
    List (Nat × PointWeatherMap) :=
  l.filterMap fun pr =>
    match pr.2 with
    | .parsed w => if w.isEmpty then none else some (pr.1.index, w)
    | _ => none

/-- Spec formulation: the failed indices produced by processing a list of
(point, payload) pairs. -/
def batchFailuresOf (l : List (BatchPoint × PayloadResult)) : List Nat :=
  l.filterMap fun pr =>
    match pr.2 with
    | .parsed w => if w.isEmpty then some pr.1.index else none
    | _ => some pr.1.index

/-! ### Spec-side formulations used to state the scoring claims -/

/-- Spec formulation: the fresh-snow term used for scoring —
`snow24_to_9_cm` if present, else the legacy `snowfall_cm`. -/
def specFreshSnow (w : PointWeather) : Option ℚ :=
  match w.snow24_to_9_cm with
  | some v => some v
  | none => w.snowfall_cm

/-- Spec formulation of the point-score formula before final clamping and
rounding: `50 + clamp(depth,0,60)*0.6 + clamp(fresh,0,30)*0.4
- max(0,gust-35)*0.8 - max(0,precip-8)*1.0 - max(0,temp-4)*3.0
- max(0,-temp-18)*1.0`, each term present only when its input is non-null. -/
def specPointScoreFormula (w : PointWeather) : ℚ :=
  50 + (match w.snow_depth_cm with | some d => clamp d 0 60 * 0.6 | none => 0)
     + (match specFreshSnow w with | some s => clamp s 0 30 * 0.4 | none => 0)
     - (match w.wind_gust_kmh_max_9_16 with | some g => max 0 (g - 35) * 0.8 | none => 0)
     - (match w.precip_mm_sum_9_16 with | some p => max 0 (p - 8) * 1.0 | none => 0)
     - (match w.temp_c_avg_9_16 with
        | some t => max 0 (t - 4) * 3.0 + max 0 (-t - 18) * 1.0
        | none => 0)

/-! ### Rounding and clamping lemmas -/

lemma roundHalfEven_bounds (q : ℚ) : ⌊q⌋ ≤ roundHalfEven q ∧ roundHalfEven q ≤ ⌊q⌋ + 1 := by
  unfold roundHalfEven
  dsimp only
  split_ifs <;> omega

lemma roundHalfEven_mono {x y : ℚ} (h : x ≤ y) : roundHalfEven x ≤ roundHalfEven y := by
  rcases lt_or_le ⌊x⌋ ⌊y⌋ with hf | hf
  · have h1 := (roundHalfEven_bounds x).2
    have h2 := (roundHalfEven_bounds y).1
    omega
  · have hfx : ⌊x⌋ = ⌊y⌋ := le_antisymm (Int.floor_mono h) hf
    have hx : x - (⌊y⌋ : ℚ) ≤ y - (⌊y⌋ : ℚ) := by linarith
    unfold roundHalfEven
    dsimp only
    rw [hfx]
    split_ifs <;> first | omega | (exfalso; linarith)

lemma round1_mono {x y : ℚ} (h : x ≤ y) : round1 x ≤ round1 y := by
  unfold round1
  have := roundHalfEven_mono (mul_le_mul_of_nonneg_right h (by norm_num : (0:ℚ) ≤ 10))
  have hc : (roundHalfEven (x * 10) : ℚ) ≤ (roundHalfEven (y * 10) : ℚ) := by
    exact_mod_cast this
  linarith

lemma roundHalfEven_intCast (n : ℤ) : roundHalfEven ((n : ℚ)) = n := by
  unfold roundHalfEven
  dsimp only
  rw [Int.floor_intCast]
  have h1 : (n : ℚ) - (n : ℚ) < 1 / 2 := by norm_num
  simp [h1]

lemma round1_tenths (n : ℤ) : round1 ((n : ℚ) / 10) = (n : ℚ) / 10 := by
  unfold round1
  have h : ((n : ℚ) / 10) * 10 = (n : ℚ) := by field_simp
  rw [h, roundHalfEven_intCast]

lemma clamp_mono {a b : ℚ} (lo hi : ℚ) (h : a ≤ b) : clamp a lo hi ≤ clamp b lo hi := by
  unfold clamp
  exact max_le_max le_rfl (min_le_min le_rfl h)

lemma clamp_nonneg (a hi : ℚ) : 0 ≤ clamp a 0 hi := le_max_left _ _

/-! ### Closed form of the point score -/

lemma calculate_point_score_eq (w : PointWeather) :
    calculate_point_score w =
      { score := round1 (clamp (specPointScoreFormula w) 0 100)
        has_snow_data := w.snow_depth_cm.isSome || (specFreshSnow w).isSome } := by
  obtain ⟨dt, t, g, p, dep, sf, s24, q⟩ := w
  cases dep <;> cases s24 <;> cases sf <;> cases g <;> cases p <;> cases t <;>
    simp only [calculate_point_score, specPointScoreFormula, specFreshSnow,
      Option.isSome_some, Option.isSome_none, Bool.true_or, Bool.or_true,
      Bool.or_false, Bool.false_or, add_zero, sub_zero, PointScore.mk.injEq,
      and_true, true_and, eq_self_iff_true]

lemma clamp_eval {v lo hi : ℚ} (h1 : lo ≤ v) (h2 : v ≤ hi) : clamp v lo hi = v := by
  unfold clamp
  rw [min_eq_right h2, max_eq_right h1]

lemma score_mono_of_formula_le {w1 w2 : PointWeather}
    (h : specPointScoreFormula w1 ≤ specPointScoreFormula w2) :
    (calculate_point_score w1).score ≤ (calculate_point_score w2).score := by
  rw [calculate_point_score_eq, calculate_point_score_eq]
  exact round1_mono (clamp_mono 0 100 h)

/-- Evaluation helper: a point score whose pre-clamp formula value is the
in-range decimal `n/10` evaluates to exactly `n/10`. -/
lemma point_score_eval (w : PointWeather) (n : ℤ) (b : Bool)
    (hf : specPointScoreFormula w = (n : ℚ) / 10)
    (h0 : (0 : ℚ) ≤ (n : ℚ) / 10) (h100 : (n : ℚ) / 10 ≤ 100)
    (hb : (w.snow_depth_cm.isSome || (specFreshSnow w).isSome) = b) :
    calculate_point_score w = ⟨(n : ℚ) / 10, b⟩ := by
  rw [calculate_point_score_eq, hf, clamp_eval h0 h100, round1_tenths, hb]

lemma cps_allNone_eval :
    calculate_point_score ⟨⟨2026, 1, 15⟩, none, none, none, none, none, none, "missing"⟩ =
      ⟨50, false⟩ := by
  have h : calculate_point_score
      ⟨⟨2026, 1, 15⟩, none, none, none, none, none, none, "missing"⟩ =
      ⟨((500 : ℤ) : ℚ) / 10, false⟩ :=
    point_score_eval _ 500 false
      (by simp only [specPointScoreFormula, specFreshSnow]; norm_num)
      (by norm_num) (by norm_num) (by simp [specFreshSnow])
  rw [h, show ((500 : ℤ) : ℚ) / 10 = 50 by norm_num]

lemma cps_depth60_fresh30_eval :
    calculate_point_score ⟨⟨2026, 1, 15⟩, none, none, none, some 60, none, some 30, "ok"⟩ =
      ⟨98, true⟩ := by
  have h : calculate_point_score
      ⟨⟨2026, 1, 15⟩, none, none, none, some 60, none, some 30, "ok"⟩ =
      ⟨((980 : ℤ) : ℚ) / 10, true⟩ :=
    point_score_eval _ 980 true
      (by
        simp only [specPointScoreFormula, specFreshSnow]
        rw [clamp_eval (by norm_num) (by norm_num), clamp_eval (by norm_num) (by norm_num)]
        norm_num)
      (by norm_num) (by norm_num) (by simp [specFreshSnow])
  rw [h, show ((980 : ℤ) : ℚ) / 10 = 98 by norm_num]

lemma cps_legacy30_eval :
    calculate_point_score ⟨⟨2026, 1, 15⟩, none, none, none, none, some 30, none, "ok"⟩ =
      ⟨62, true⟩ := by
  have h : calculate_point_score
      ⟨⟨2026, 1, 15⟩, none, none, none, none, some 30, none, "ok"⟩ =
      ⟨((620 : ℤ) : ℚ) / 10, true⟩ :=
    point_score_eval _ 620 true
      (by
        simp only [specPointScoreFormula, specFreshSnow]
        rw [clamp_eval (by norm_num) (by norm_num)]
        norm_num)
      (by norm_num) (by norm_num) (by simp [specFreshSnow])
  rw [h, show ((620 : ℤ) : ℚ) / 10 = 62 by norm_num]

lemma cps_legacy30_snow24zero_eval :
    calculate_point_score ⟨⟨2026, 1, 15⟩, none, none, none, none, some 30, some 0, "ok"⟩ =
      ⟨50, true⟩ := by
  have h : calculate_point_score
      ⟨⟨2026, 1, 15⟩, none, none, none, none, some 30, some 0, "ok"⟩ =
      ⟨((500 : ℤ) : ℚ) / 10, true⟩ :=
    point_score_eval _ 500 true
      (by
        simp only [specPointScoreFormula, specFreshSnow]
        rw [clamp_eval (by norm_num) (by norm_num)]
        norm_num)
      (by norm_num) (by norm_num) (by simp [specFreshSnow])
  rw [h, show ((500 : ℤ) : ℚ) / 10 = 50 by norm_num]

/-! ### Claim theorems: scoring -/

/-- C9: the unit converter is a pure total function: `m → ×100`, `mm → ÷10`,
`cm → identity`, unrecognized unit → identity, and `None ↦ None`. -/
theorem C9_convert_to_cm (x : ℚ) (u : String) :
    convert_to_cm (some x) "m" = some (x * 100) ∧
    convert_to_cm (some x) "mm" = some (x / 10) ∧
    convert_to_cm (some x) "cm" = some x ∧
    (u ≠ "m" → u ≠ "cm" → u ≠ "mm" → convert_to_cm (some x) u = some x) ∧
    convert_to_cm none u = none := by
  refine ⟨rfl, ?_, rfl, ?_, rfl⟩
  · show (if ("mm" : String) = "m" then some (x * 100)
      else if ("mm" : String) = "cm" then some x
      else if ("mm" : String) = "mm" then some (x / 10) else some x) = some (x / 10)
    rw [if_neg (by decide), if_neg (by decide), if_pos rfl]
  · intro h1 h2 h3
    show (if u = "m" then some (x * 100)
      else if u = "cm" then some x
      else if u = "mm" then some (x / 10) else some x) = some x
    rw [if_neg h1, if_neg h2, if_neg h3]

theorem C9_convert_to_cm_witness : convert_to_cm (some 3) "ft" = some 3 :=
  (C9_convert_to_cm 3 "ft").2.2.2.1 (by decide) (by decide) (by decide)

/-- C3: `calculate_point_score` computes
`round1 (clamp (50 + clamp(depth,0,60)*0.6 + clamp(fresh,0,30)*0.4
- max(0,gust-35)*0.8 - max(0,precip-8)*1.0 - max(0,temp-4)*3.0
- max(0,-temp-18)*1.0) 0 100)` over the non-None fields, where `fresh` is
`snow24_to_9_cm` if present else the legacy `snowfall_cm`; `has_snow_data`
holds iff depth or the fresh term is non-None; and
`depth=60, fresh=30, penalties None` scores exactly `98.0`. -/
theorem C3_calculate_point_score (w : PointWeather) :
    calculate_point_score w =
      { score := round1 (clamp (specPointScoreFormula w) 0 100)
        has_snow_data := w.snow_depth_cm.isSome || (specFreshSnow w).isSome } ∧
    (calculate_point_score
      ⟨⟨2026, 1, 15⟩, none, none, none, some 60, none, some 30, "ok"⟩).score = 98 := by
  refine ⟨calculate_point_score_eq w, ?_⟩
  rw [cps_depth60_fresh30_eval]

/-- C4: `calculate_resort_score` combines the two point scores as
`round1 (0.45*low + 0.55*high)` and sets confidence 1.0/0.7/0.4 according to
whether both, exactly one, or neither point score has snow data;
`low=50` (no snow data) with `high=98` (snow data) gives `76.4` with
confidence `0.7`. -/
theorem C4_calculate_resort_score (wl wh : PointWeather) :
    (calculate_resort_score wl wh).score =
      round1 (0.45 * (calculate_point_score wl).score +
              0.55 * (calculate_point_score wh).score) ∧
    ((calculate_point_score wl).has_snow_data = true →
      (calculate_point_score wh).has_snow_data = true →
      (calculate_resort_score wl wh).confidence = 1.0) ∧
    ((calculate_point_score wl).has_snow_data = true →
      (calculate_point_score wh).has_snow_data = false →
      (calculate_resort_score wl wh).confidence = 0.7) ∧
    ((calculate_point_score wl).has_snow_data = false →
      (calculate_point_score wh).has_snow_data = true →
      (calculate_resort_score wl wh).confidence = 0.7) ∧
    ((calculate_point_score wl).has_snow_data = false →
      (calculate_point_score wh).has_snow_data = false →
      (calculate_resort_score wl wh).confidence = 0.4) ∧
    (calculate_resort_score
        ⟨⟨2026, 1, 15⟩, none, none, none, none, none, none, "missing"⟩
        ⟨⟨2026, 1, 15⟩, none, none, none, some 60, none, some 30, "ok"⟩).score = 76.4 ∧
    (calculate_resort_score
        ⟨⟨2026, 1, 15⟩, none, none, none, none, none, none, "missing"⟩
        ⟨⟨2026, 1, 15⟩, none, none, none, some 60, none, some 30, "ok"⟩).confidence = 0.7 := by
  refine ⟨rfl, ?_, ?_, ?_, ?_, ?_, ?_⟩
  · intro h1 h2; simp [calculate_resort_score, h1, h2]
  · intro h1 h2; simp [calculate_resort_score, h1, h2]
  · intro h1 h2; simp [calculate_resort_score, h1, h2]
  · intro h1 h2; simp [calculate_resort_score, h1, h2]
  · show round1 (0.45 * (calculate_point_score _).score +
        0.55 * (calculate_point_score _).score) = 76.4
    rw [cps_allNone_eval, cps_depth60_fresh30_eval]
    show round1 (0.45 * 50 + 0.55 * 98) = 76.4
    rw [show (0.45 : ℚ) * 50 + 0.55 * 98 = ((764 : ℤ) : ℚ) / 10 by norm_num,
      round1_tenths]
    norm_num
  · show (calculate_resort_score _ _).confidence = 0.7
    simp [calculate_resort_score, cps_allNone_eval, cps_depth60_fresh30_eval]

theorem C4_calculate_resort_score_witness :
    (calculate_resort_score
        ⟨⟨2026, 1, 15⟩, none, none, none, none, none, none, "missing"⟩
        ⟨⟨2026, 1, 15⟩, none, none, none, some 60, none, some 30, "ok"⟩).confidence = 0.7 :=
  (C4_calculate_resort_score
    ⟨⟨2026, 1, 15⟩, none, none, none, none, none, none, "missing"⟩
    ⟨⟨2026, 1, 15⟩, none, none, none, some 60, none, some 30, "ok"⟩).2.2.2.2.2.2

/-- C10 counterexample: with legacy `snowfall_cm = 30` present and
`snow24_to_9_cm = None`, replacing the None `snow24_to_9_cm` by the
non-negative value 0 strictly lowers the score (62.0 → 50.0), because a
present `snow24_to_9_cm` overrides the legacy fallback — refuting the claim
that replacing a None snow field by a non-negative value never decreases the
score. -/
theorem C10_counterexample :
    (calculate_point_score
        ⟨⟨2026, 1, 15⟩, none, none, none, none, some 30, some 0, "ok"⟩).score <
    (calculate_point_score
        ⟨⟨2026, 1, 15⟩, none, none, none, none, some 30, none, "ok"⟩).score := by
  rw [cps_legacy30_snow24zero_eval, cps_legacy30_eval]
  norm_num

/-- C10 amended: the score is monotone non-decreasing when raising a present
`snow_depth_cm` or a present `snow24_to_9_cm` (non-negative values), and when
replacing a None `snow_depth_cm` by a non-negative value; replacing a None
`snow24_to_9_cm` by a non-negative value is non-decreasing provided the
legacy `snowfall_cm` is None (otherwise the new value overrides the larger
legacy fallback, see the counterexample). -/
theorem C10_snow_monotonicity (w : PointWeather) (d1 d2 v : ℚ) :
    (0 ≤ d1 → d1 ≤ d2 →
      (calculate_point_score { w with snow_depth_cm := some d1 }).score ≤
      (calculate_point_score { w with snow_depth_cm := some d2 }).score) ∧
    (0 ≤ d1 → d1 ≤ d2 →
      (calculate_point_score { w with snow24_to_9_cm := some d1 }).score ≤
      (calculate_point_score { w with snow24_to_9_cm := some d2 }).score) ∧
    (0 ≤ v →
      (calculate_point_score { w with snow_depth_cm := none }).score ≤
      (calculate_point_score { w with snow_depth_cm := some v }).score) ∧
    (0 ≤ v → w.snowfall_cm = none →
      (calculate_point_score { w with snow24_to_9_cm := none }).score ≤
      (calculate_point_score { w with snow24_to_9_cm := some v }).score) := by
  have h06 : (0 : ℚ) ≤ 0.6 := by norm_num
  have h04 : (0 : ℚ) ≤ 0.4 := by norm_num
  refine ⟨?_, ?_, ?_, ?_⟩
  · intro _ h12
    apply score_mono_of_formula_le
    simp only [specPointScoreFormula, specFreshSnow]
    have hc := mul_le_mul_of_nonneg_right (clamp_mono 0 60 h12) h06
    exact sub_le_sub_right (sub_le_sub_right (sub_le_sub_right
      (add_le_add_right (add_le_add_left hc 50) _) _) _) _
  · intro _ h12
    apply score_mono_of_formula_le
    simp only [specPointScoreFormula, specFreshSnow]
    have hc := mul_le_mul_of_nonneg_right (clamp_mono 0 30 h12) h04
    exact sub_le_sub_right (sub_le_sub_right (sub_le_sub_right
      (add_le_add_left hc _) _) _) _
  · intro hv
    apply score_mono_of_formula_le
    simp only [specPointScoreFormula, specFreshSnow]
    have hc : (0 : ℚ) ≤ clamp v 0 60 * 0.6 :=
      mul_nonneg (clamp_nonneg v 60) h06
    have hc' : (50 : ℚ) + 0 ≤ 50 + clamp v 0 60 * 0.6 := by linarith
    exact sub_le_sub_right (sub_le_sub_right (sub_le_sub_right
      (add_le_add_right hc' _) _) _) _
  · intro hv hsf
    apply score_mono_of_formula_le
    simp only [specPointScoreFormula, specFreshSnow, hsf]
    have hc : (0 : ℚ) ≤ clamp v 0 30 * 0.4 :=
      mul_nonneg (clamp_nonneg v 30) h04
    exact sub_le_sub_right (sub_le_sub_right (sub_le_sub_right
      (add_le_add_left hc _) _) _) _

theorem C10_snow_monotonicity_witness :
    (calculate_point_score
        ⟨⟨2026, 1, 15⟩, none, none, none, none, none, none, "missing"⟩).score ≤
    (calculate_point_score
        ⟨⟨2026, 1, 15⟩, none, none, none, none, none, some 1, "missing"⟩).score :=
  (C10_snow_monotonicity
    ⟨⟨2026, 1, 15⟩, none, none, none, none, none, none, "missing"⟩ 0 0 1).2.2.2
    (by norm_num) rfl

/-! ### Lemmas about the snow24 accumulation -/

lemma insertAdd_ne_nil (m : List (Int × ℚ)) (k : Int) (v : ℚ) : insertAdd m k v ≠ [] := by
  cases m with
  | nil => simp [insertAdd]
  | cons a rest =>
    obtain ⟨k', v'⟩ := a
    simp only [insertAdd]
    split_ifs <;> simp

lemma insertAdd_snd_sum (m : List (Int × ℚ)) (k : Int) (v : ℚ) :
    ((insertAdd m k v).map Prod.snd).sum = (m.map Prod.snd).sum + v := by
  induction m with
  | nil => simp [insertAdd]
  | cons a rest ih =>
    obtain ⟨k', v'⟩ := a
    simp only [insertAdd]
    split_ifs with h
    · simp only [List.map_cons, List.sum_cons]
      ring
    · simp only [List.map_cons, List.sum_cons, ih]
      ring

lemma mem_insertAdd_fst (m : List (Int × ℚ)) (k : Int) (v : ℚ) (t : Int) :
    t ∈ (insertAdd m k v).map Prod.fst ↔ t ∈ m.map Prod.fst ∨ t = k := by
  induction m with
  | nil => simp [insertAdd]
  | cons a rest ih =>
    obtain ⟨k', v'⟩ := a
    simp only [insertAdd]
    split_ifs with h
    · subst h
      simp only [List.map_cons, List.mem_cons]
      tauto
    · simp only [List.map_cons, List.mem_cons, ih]
      tauto

lemma foldl_snowStep_sum (expected : List Int) (l : List (Int × Option ℚ)) :
    ∀ m : List (Int × ℚ),
      ((l.foldl (snowSampleStep expected) m).map Prod.snd).sum =
        (m.map Prod.snd).sum + ((matchedPairs expected l).map Prod.snd).sum := by
  induction l with
  | nil => intro m; simp [matchedPairs]
  | cons p rest ih =>
    intro m
    obtain ⟨pt, pv⟩ := p
    cases pv with
    | none => simpa [matchedPairs, snowSampleStep] using ih m
    | some v =>
      by_cases h : expected.contains (pt - pt % 3600)
      · simp only [List.foldl_cons, snowSampleStep, h, if_true, matchedPairs,
          List.filterMap_cons]
        rw [ih (insertAdd m (pt - pt % 3600) v), insertAdd_snd_sum]
        simp [matchedPairs]
        ring
      · simp only [List.foldl_cons, snowSampleStep, h, if_false, matchedPairs,
          List.filterMap_cons]
        simpa [matchedPairs, h] using ih m

lemma foldl_snowStep_mem_fst (expected : List Int) (l : List (Int × Option ℚ)) :
    ∀ (m : List (Int × ℚ)) (t : Int),
      t ∈ (l.foldl (snowSampleStep expected) m).map Prod.fst ↔
        t ∈ m.map Prod.fst ∨ t ∈ (matchedPairs expected l).map Prod.fst := by
  induction l with
  | nil => intro m t; simp [matchedPairs]
  | cons p rest ih =>
    intro m t
    obtain ⟨pt, pv⟩ := p
    cases pv with
    | none => simpa [matchedPairs, snowSampleStep] using ih m t
    | some v =>
      by_cases h : expected.contains (pt - pt % 3600)
      · simp only [List.foldl_cons, snowSampleStep, h, if_true, matchedPairs,
          List.filterMap_cons]
        rw [ih (insertAdd m (pt - pt % 3600) v) t]
        simp only [mem_insertAdd_fst, matchedPairs, List.map_cons, List.mem_cons]
        tauto
      · simp only [List.foldl_cons, snowSampleStep, h, if_false, matchedPairs,
          List.filterMap_cons]
        simpa [matchedPairs, h] using ih m t

lemma foldl_snowStep_eq_nil (expected : List Int) (l : List (Int × Option ℚ)) :
    ∀ m : List (Int × ℚ),
      (l.foldl (snowSampleStep expected) m = [] ↔ m = [] ∧ matchedPairs expected l = []) := by
  induction l with
  | nil => intro m; simp [matchedPairs]
  | cons p rest ih =>
    intro m
    obtain ⟨pt, pv⟩ := p
    cases pv with
    | none => simpa [matchedPairs, snowSampleStep] using ih m
    | some v =>
      by_cases h : expected.contains (pt - pt % 3600)
      · simp only [List.foldl_cons, snowSampleStep, h, if_true, matchedPairs,
          List.filterMap_cons]
        rw [ih (insertAdd m (pt - pt % 3600) v)]
        simp [insertAdd_ne_nil, matchedPairs]
      · simp only [List.foldl_cons, snowSampleStep, h, if_false, matchedPairs,
          List.filterMap_cons]
        simpa [matchedPairs, h] using ih m

/-! ### Lemmas about the expected-slot window -/

lemma expectedUnix_length (s e : Int) :
    (expectedUnix s e).length = (e - s + 3599).toNat / 3600 := by
  unfold expectedUnix
  rw [List.length_map, List.length_range]

lemma mem_expectedUnix {s e : Int} (hs : s % 3600 = 0) (t : Int) :
    t ∈ expectedUnix s e ↔ t % 3600 = 0 ∧ s ≤ t ∧ t < e := by
  unfold expectedUnix
  constructor
  · intro h
    rw [List.mem_map] at h
    obtain ⟨k, hk, hkt⟩ := h
    rw [List.mem_range] at hk
    omega
  · rintro ⟨ht, hst, hte⟩
    rw [List.mem_map]
    refine ⟨((t - s) / 3600).toNat, ?_, ?_⟩
    · rw [List.mem_range]; omega
    · omega

lemma berlinOffsetAt9_cases (c : CivilDate) :
    berlinOffsetAt9 c = 1 ∨ berlinOffsetAt9 c = 2 := by
  unfold berlinOffsetAt9
  split_ifs <;> simp

lemma berlin9Unix_mod (c : CivilDate) : berlin9Unix c % 3600 = 0 := by
  unfold berlin9Unix berlinOffsetAt9
  split_ifs <;> omega

set_option maxHeartbeats 1600000 in
lemma daysFromCivil_prevDay (c : CivilDate) (h : ValidDate c) :
    daysFromCivil (prevDay c) + 1 = daysFromCivil c := by
  obtain ⟨y, m, d⟩ := c
  simp only [ValidDate, daysInMonth, isLeapYear] at h
  obtain ⟨h1, h2, h3, h4⟩ := h
  by_cases hd : 1 < d
  · simp only [prevDay]
    rw [if_pos hd]
    simp only [daysFromCivil]
    split_ifs <;> omega
  · have hd1 : d = 1 := by omega
    subst hd1
    interval_cases m <;>
      norm_num [prevDay, daysInMonth, daysFromCivil, isLeapYear,
        Bool.or_eq_true, Bool.and_eq_true, decide_eq_true_eq, Bool.not_eq_true',
        decide_eq_false_iff_not, ne_eq] <;>
      omega

lemma berlin9Unix_prevDay_bounds (c : CivilDate) (h : ValidDate c) :
    82800 ≤ berlin9Unix c - berlin9Unix (prevDay c) ∧
      berlin9Unix c - berlin9Unix (prevDay c) ≤ 90000 := by
  have hd := daysFromCivil_prevDay c h
  rcases berlinOffsetAt9_cases c with h1 | h1 <;>
    rcases berlinOffsetAt9_cases (prevDay c) with h2 | h2 <;>
    (unfold berlin9Unix; omega)

lemma convert_to_cm_some (x : ℚ) (u : String) :
    convert_to_cm (some x) u = some (convertScalar u x) := by
  unfold convert_to_cm convertScalar
  split_ifs <;> rfl

/-- Full behavioural characterization of `compute_snow24_to_9` in terms of
the matched samples. -/
lemma compute_snow24_eq (times : List Int) (vals : List (Option ℚ))
    (target : CivilDate) (u : String) :
    compute_snow24_to_9 times vals target u =
      (if matchedPairs (expectedUnix (berlin9Unix (prevDay target)) (berlin9Unix target))
            (times.zip vals) = [] then
        ((none : Option ℚ), "missing")
      else
        (some (round1 (convertScalar (normalizeUnit u)
            (((matchedPairs (expectedUnix (berlin9Unix (prevDay target)) (berlin9Unix target))
                (times.zip vals)).map Prod.snd).sum))),
         if (∀ t ∈ expectedUnix (berlin9Unix (prevDay target)) (berlin9Unix target),
              t ∈ (matchedPairs (expectedUnix (berlin9Unix (prevDay target)) (berlin9Unix target))
                    (times.zip vals)).map Prod.fst) ∧ times.length = vals.length
         then "ok" else "partial")) := by
  set expected := expectedUnix (berlin9Unix (prevDay target)) (berlin9Unix target) with hexp
  set mp := matchedPairs expected (times.zip vals) with hmpdef
  have hsum := foldl_snowStep_sum expected (times.zip vals) []
  have hnil := foldl_snowStep_eq_nil expected (times.zip vals) []
  have hmem := foldl_snowStep_mem_fst expected (times.zip vals) []
  unfold compute_snow24_to_9
  dsimp only
  rw [← hexp]
  set F := (times.zip vals).foldl (snowSampleStep expected) [] with hFdef
  by_cases hmp : mp = []
  · have hF : F = [] := hnil.mpr ⟨rfl, hmp⟩
    rw [if_pos hmp, hF]
    rfl
  · have hF : F ≠ [] := fun hc => hmp (hnil.mp hc).2
    have hFe : (F.map Prod.snd).isEmpty = false := by
      rw [List.isEmpty_eq_false]
      simp only [ne_eq, List.map_eq_nil_iff]
      exact hF
    rw [if_neg hmp, hFe]
    simp only [Bool.false_eq_true, if_false]
    have hs : (F.map Prod.snd).sum = ((mp.map Prod.snd).sum : ℚ) := by
      rw [hsum]; simp
    rw [hs, convert_to_cm_some]
    simp only [Option.map_some']
    refine Prod.ext rfl ?_
    show (if expected.filter (fun t => ¬ (F.map Prod.fst).contains t) ≠ [] ∨
        times.length ≠ vals.length then "partial" else "ok") = _
    by_cases hq : (∀ t ∈ expected, t ∈ mp.map Prod.fst) ∧ times.length = vals.length
    · rw [if_pos hq]
      rw [if_neg]
      push_neg
      constructor
      · rw [List.filter_eq_nil_iff]
        intro t ht
        simp only [decide_not, Bool.not_eq_true', Bool.not_eq_false, decide_eq_true_eq]
        rw [List.elem_iff]
        rw [hmem t]
        exact Or.inr (hq.1 t ht)
      · exact hq.2
    · rw [if_neg hq, if_pos]
      by_cases hall : ∀ t ∈ expected, t ∈ mp.map Prod.fst
      · right
        intro hlen
        exact hq ⟨hall, hlen⟩
      · push_neg at hall
        obtain ⟨t, ht, hnot⟩ := hall
        left
        intro hfil
        rw [List.filter_eq_nil_iff] at hfil
        have := hfil t ht
        simp only [decide_not, Bool.not_eq_true', Bool.not_eq_false, decide_eq_true_eq] at this
        rw [List.elem_iff, hmem t] at this
        rcases this with h | h
        · simp at h
        · exact hnot h

lemma contains_of_mem {l : List Int} {a : Int} (h : a ∈ l) : l.contains a = true :=
  List.elem_iff.mpr h

lemma matchedPairs_replicate (expected : List Int) :
    ∀ l : List Int, (∀ t ∈ l, t % 3600 = 0 ∧ t ∈ expected) → ∀ v : ℚ,
      matchedPairs expected (l.zip (List.replicate l.length (some v))) =
        l.map (fun t => (t, v)) := by
  intro l
  induction l with
  | nil => intro _ v; rfl
  | cons a as ih =>
    intro h v
    obtain ⟨ha1, ha2⟩ := h a (List.mem_cons_self a as)
    have hZ : a - a % 3600 = a := by omega
    simp only [List.length_cons, List.replicate_succ, List.zip_cons_cons, List.map_cons]
    show matchedPairs expected ((a, some v) :: as.zip (List.replicate as.length (some v))) = _
    unfold matchedPairs
    simp only [List.filterMap_cons]
    rw [hZ, if_pos (contains_of_mem ha2)]
    have ihr := ih (fun t ht => h t (List.mem_cons_of_mem a ht)) v
    unfold matchedPairs at ihr
    rw [ihr]

/-! ### Claim theorems: snow24 window -/

/-- C1 counterexample: on the spring DST-transition day 2026-03-29 (a valid
calendar date), the expected-slot set built by `compute_snow24_to_9` has 23
elements, not 24 — Python's wall-clock `end_dt - timedelta(hours=24)` spans
only 23 absolute hours across the spring-forward transition. -/
theorem C1_counterexample :
    ValidDate ⟨2026, 3, 29⟩ ∧
    (expectedUnix (berlin9Unix (prevDay ⟨2026, 3, 29⟩))
        (berlin9Unix ⟨2026, 3, 29⟩)).length = 23 := by
  constructor
  · decide
  · decide

/-- C1 amended: for every valid target day the expected slots are exactly the
hour-aligned timestamps in the half-open interval `[start, end)` with
`start` = 09:00 local on the previous calendar day and `end` = 09:00 local on
the target day; their number is `(end - start)/3600`, which is 24 whenever
the UTC offset at 09:00 is the same on both days (i.e. on every
non-DST-transition day); a single sample at exactly `start` is included and
yields `(converted sample, "partial")`, and a single sample at exactly `end`
is excluded and yields `(None, "missing")`. -/
theorem C1_snow24_window (target : CivilDate) (hv : ValidDate target) (v : ℚ) (u : String) :
    (∀ t : Int,
      t ∈ expectedUnix (berlin9Unix (prevDay target)) (berlin9Unix target) ↔
        t % 3600 = 0 ∧ berlin9Unix (prevDay target) ≤ t ∧ t < berlin9Unix target) ∧
    (expectedUnix (berlin9Unix (prevDay target)) (berlin9Unix target)).length =
      ((berlin9Unix target - berlin9Unix (prevDay target)) / 3600).toNat ∧
    (berlinOffsetAt9 (prevDay target) = berlinOffsetAt9 target →
      (expectedUnix (berlin9Unix (prevDay target)) (berlin9Unix target)).length = 24) ∧
    compute_snow24_to_9 [berlin9Unix (prevDay target)] [some v] target u =
      (some (round1 (convertScalar (normalizeUnit u) v)), "partial") ∧
    compute_snow24_to_9 [berlin9Unix target] [some v] target u = (none, "missing") := by
  have hs := berlin9Unix_mod (prevDay target)
  have he := berlin9Unix_mod target
  have hb := berlin9Unix_prevDay_bounds target hv
  have hd := daysFromCivil_prevDay target hv
  refine ⟨mem_expectedUnix hs, ?_, ?_, ?_, ?_⟩
  · rw [expectedUnix_length]
    omega
  · intro hoff
    rw [expectedUnix_length]
    unfold berlin9Unix at *
    omega
  · rw [compute_snow24_eq]
    have hmemS : berlin9Unix (prevDay target) ∈
        expectedUnix (berlin9Unix (prevDay target)) (berlin9Unix target) :=
      (mem_expectedUnix hs _).mpr ⟨hs, le_refl _, by omega⟩
    have hmp : matchedPairs
        (expectedUnix (berlin9Unix (prevDay target)) (berlin9Unix target))
        ([berlin9Unix (prevDay target)].zip [some v]) =
        [(berlin9Unix (prevDay target), v)] := by
      unfold matchedPairs
      simp only [List.zip_cons_cons, List.zip_nil_right, List.filterMap_cons,
        List.filterMap_nil]
      rw [show berlin9Unix (prevDay target) - berlin9Unix (prevDay target) % 3600 =
        berlin9Unix (prevDay target) by omega]
      rw [if_pos (contains_of_mem hmemS)]
    rw [hmp]
    rw [if_neg (by simp)]
    have hmemS' : berlin9Unix (prevDay target) + 3600 ∈
        expectedUnix (berlin9Unix (prevDay target)) (berlin9Unix target) :=
      (mem_expectedUnix hs _).mpr ⟨by omega, by omega, by omega⟩
    rw [if_neg]
    · simp
    · rintro ⟨hall, -⟩
      have := hall _ hmemS'
      simp only [List.map_cons, List.map_nil, List.mem_singleton] at this
      omega
  · rw [compute_snow24_eq]
    have hnotmem : berlin9Unix target ∉
        expectedUnix (berlin9Unix (prevDay target)) (berlin9Unix target) := by
      rw [mem_expectedUnix hs]
      omega
    have hmp : matchedPairs
        (expectedUnix (berlin9Unix (prevDay target)) (berlin9Unix target))
        ([berlin9Unix target].zip [some v]) = [] := by
      unfold matchedPairs
      simp only [List.zip_cons_cons, List.zip_nil_right, List.filterMap_cons,
        List.filterMap_nil]
      rw [show berlin9Unix target - berlin9Unix target % 3600 = berlin9Unix target by omega]
      rw [if_neg]
      intro hc
      exact hnotmem (List.elem_iff.mp hc)
    rw [hmp, if_pos rfl]

theorem C1_snow24_window_witness :
    compute_snow24_to_9 [berlin9Unix (prevDay ⟨2026, 1, 15⟩)] [some 5] ⟨2026, 1, 15⟩ "cm" =
      (some (round1 (convertScalar (normalizeUnit "cm") 5)), "partial") :=
  (C1_snow24_window ⟨2026, 1, 15⟩ (by decide) 5 "cm").2.2.2.1

/-- C2: `compute_snow24_to_9` yields `(None, "missing")` iff no value matched
an expected slot; otherwise the value is the sum of the matched raw values,
converted once and rounded to one decimal, with quality `"ok"` iff every
expected slot was matched and the time/value arrays had equal length, else
`"partial"`; and a full 24-slot window of hourly 1.0 cm samples yields
`(24.0, "ok")`. -/
theorem C2_snow24_sum_and_quality (times : List Int) (vals : List (Option ℚ))
    (target : CivilDate) (u : String) :
    (matchedPairs (expectedUnix (berlin9Unix (prevDay target)) (berlin9Unix target))
        (times.zip vals) = [] →
      compute_snow24_to_9 times vals target u = (none, "missing")) ∧
    (matchedPairs (expectedUnix (berlin9Unix (prevDay target)) (berlin9Unix target))
        (times.zip vals) ≠ [] →
      compute_snow24_to_9 times vals target u =
        (some (round1 (convertScalar (normalizeUnit u)
            (((matchedPairs (expectedUnix (berlin9Unix (prevDay target)) (berlin9Unix target))
                (times.zip vals)).map Prod.snd).sum))),
         if (∀ t ∈ expectedUnix (berlin9Unix (prevDay target)) (berlin9Unix target),
              t ∈ (matchedPairs (expectedUnix (berlin9Unix (prevDay target)) (berlin9Unix target))
                    (times.zip vals)).map Prod.fst) ∧ times.length = vals.length
         then "ok" else "partial")) ∧
    compute_snow24_to_9
        (expectedUnix (berlin9Unix (prevDay ⟨2026, 1, 15⟩)) (berlin9Unix ⟨2026, 1, 15⟩))
        (List.replicate 24 (some 1)) ⟨2026, 1, 15⟩ "cm" = (some 24, "ok") := by
  refine ⟨?_, ?_, ?_⟩
  · intro hmp
    rw [compute_snow24_eq, if_pos hmp]
  · intro hmp
    rw [compute_snow24_eq, if_neg hmp]
  · set E := expectedUnix (berlin9Unix (prevDay ⟨2026, 1, 15⟩)) (berlin9Unix ⟨2026, 1, 15⟩)
      with hE
    have hlen : E.length = 24 := by rw [hE]; decide
    have hmod : ∀ t ∈ E, t % 3600 = 0 ∧ t ∈ E := by
      intro t ht
      exact ⟨((mem_expectedUnix (berlin9Unix_mod _) t).mp (hE ▸ ht)).1, ht⟩
    have h24 : List.replicate 24 (some (1 : ℚ)) = List.replicate E.length (some 1) := by
      rw [hlen]
    have hmp := matchedPairs_replicate E E hmod 1
    rw [compute_snow24_eq, h24, ← hE, hmp]
    have hEne : E ≠ [] := by
      intro hc
      rw [hc] at hlen
      simp at hlen
    rw [if_neg (fun hc => hEne (List.map_eq_nil_iff.mp hc))]
    have hfst : (E.map (fun t => (t, (1 : ℚ)))).map Prod.fst = E := by
      rw [List.map_map]
      have hc : (Prod.fst ∘ fun t : Int => (t, (1 : ℚ))) = fun t => t := rfl
      rw [hc, List.map_id']
    have hsnd : ((E.map (fun t => (t, (1 : ℚ)))).map Prod.snd).sum = 24 := by
      rw [List.map_map]
      have : (Prod.snd ∘ fun t : Int => (t, (1 : ℚ))) = fun _ => (1 : ℚ) := rfl
      rw [this, List.map_const', hlen, List.sum_replicate]
      norm_num
    rw [hsnd, hfst]
    rw [if_pos ⟨fun t ht => ht, by rw [hlen, List.length_replicate]⟩]
    have hconv : convertScalar (normalizeUnit "cm") 24 = ((240 : ℤ) : ℚ) / 10 := by
      rw [show normalizeUnit "cm" = "cm" from by decide]
      unfold convertScalar
      rw [if_neg (by decide), if_pos rfl]
      norm_num
    rw [hconv, round1_tenths]
    norm_num

theorem C2_snow24_sum_and_quality_witness :
    compute_snow24_to_9
        (expectedUnix (berlin9Unix (prevDay ⟨2026, 1, 15⟩)) (berlin9Unix ⟨2026, 1, 15⟩))
        (List.replicate 24 (some 1)) ⟨2026, 1, 15⟩ "cm" = (some 24, "ok") :=
  (C2_snow24_sum_and_quality [] [] ⟨2026, 1, 15⟩ "cm").2.2

/-! ### Lemmas about the batch loop -/

lemma batch_isEmpty_false {allPoints : List BatchPoint} {st : FetchLoopState}
    (hi : st.i < allPoints.length) (hbs : 0 < st.batchSize) :
    ((allPoints.drop st.i).take st.batchSize).isEmpty = false := by
  rw [List.isEmpty_eq_false]
  intro hc
  have := congrArg List.length hc
  rw [List.length_take, List.length_drop] at this
  simp only [List.length_nil] at this
  omega

lemma fetchStep_urlTooLong_shrink40 {allPoints : List BatchPoint} {st : FetchLoopState}
    (hi : st.i < allPoints.length) (h : st.batchSize = 40) :
    fetchStep allPoints st .urlTooLong = { st with batchSize := 20 } := by
  simp only [fetchStep, fetchBatch, h, FALLBACK_BATCH_SIZES, DEFAULT_BATCH_SIZE]
  norm_num
  rw [if_neg (by omega : ¬ allPoints.length ≤ st.i)]
  simp

lemma fetchStep_urlTooLong_shrink20 {allPoints : List BatchPoint} {st : FetchLoopState}
    (hi : st.i < allPoints.length) (h : st.batchSize = 20) :
    fetchStep allPoints st .urlTooLong = { st with batchSize := 10 } := by
  simp only [fetchStep, fetchBatch, h, FALLBACK_BATCH_SIZES, DEFAULT_BATCH_SIZE]
  norm_num
  rw [if_neg (by omega : ¬ allPoints.length ≤ st.i)]

lemma fetchStep_urlTooLong_exhaust10 {allPoints : List BatchPoint} {st : FetchLoopState}
    (hi : st.i < allPoints.length) (h : st.batchSize = 10) :
    fetchStep allPoints st .urlTooLong =
      { st with
        allFailed := st.allFailed ++
          ((allPoints.drop st.i).take 10).map (fun p => p.index)
        i := st.i + ((allPoints.drop st.i).take 10).length } := by
  simp only [fetchStep, fetchBatch, h, FALLBACK_BATCH_SIZES, DEFAULT_BATCH_SIZE]
  norm_num
  rw [if_neg (by omega : ¬ allPoints.length ≤ st.i)]

lemma fetchStep_runtimeError (allPoints : List BatchPoint) (st : FetchLoopState) :
    fetchStep allPoints st .runtimeError =
      { st with
        allFailed := st.allFailed ++
          ((allPoints.drop st.i).take st.batchSize).map (fun p => p.index)
        nBatches := st.nBatches + 1
        i := st.i + ((allPoints.drop st.i).take st.batchSize).length } := by
  by_cases hb : ((allPoints.drop st.i).take st.batchSize).isEmpty = true
  · have hnil : (allPoints.drop st.i).take st.batchSize = [] := by
      rwa [List.isEmpty_iff] at hb
    simp [fetchStep, fetchBatch, hnil]
  · have hb' : ((allPoints.drop st.i).take st.batchSize).isEmpty = false := by
      simpa using hb
    simp [fetchStep, fetchBatch, hb']

lemma fetchStep_batchSize_mono (allPoints : List BatchPoint) (st : FetchLoopState)
    (o : BatchOutcome)
    (h : st.batchSize = 40 ∨ st.batchSize = 20 ∨ st.batchSize = 10) :
    (fetchStep allPoints st o).batchSize ≤ st.batchSize ∧
      ((fetchStep allPoints st o).batchSize = 40 ∨
       (fetchStep allPoints st o).batchSize = 20 ∨
       (fetchStep allPoints st o).batchSize = 10) := by
  by_cases hb : ((allPoints.drop st.i).take st.batchSize).isEmpty = true
  · cases o <;> simp [fetchStep, fetchBatch, hb] <;> exact h
  · have hb' : ((allPoints.drop st.i).take st.batchSize).isEmpty = false := by
      simpa using hb
    have hi : st.i < allPoints.length := by
      rw [List.isEmpty_eq_false] at hb'
      by_contra hc
      exact hb' (by rw [List.drop_eq_nil_of_le (by omega), List.take_nil])
    cases o with
    | http rs => simp [fetchStep, fetchBatch, hb']; exact h
    | runtimeError => simp [fetchStep, fetchBatch, hb']; exact h
    | urlTooLong =>
      rcases h with h | h | h
      · rw [fetchStep_urlTooLong_shrink40 hi h, h]
        exact ⟨by norm_num, by norm_num⟩
      · rw [fetchStep_urlTooLong_shrink20 hi h, h]
        exact ⟨by norm_num, by norm_num⟩
      · rw [fetchStep_urlTooLong_exhaust10 hi h, h]
        exact ⟨le_refl _, by norm_num⟩

lemma fetchLoop_batchSize_mono (allPoints : List BatchPoint) (os : List BatchOutcome) :
    ∀ st : FetchLoopState,
      (st.batchSize = 40 ∨ st.batchSize = 20 ∨ st.batchSize = 10) →
      (fetchLoop allPoints os st).batchSize ≤ st.batchSize := by
  induction os with
  | nil => intro st _; exact le_refl _
  | cons o os ih =>
    intro st h
    show (if st.i < allPoints.length then fetchLoop allPoints os (fetchStep allPoints st o)
      else st).batchSize ≤ st.batchSize
    split_ifs with hi
    · have hs := fetchStep_batchSize_mono allPoints st o h
      exact le_trans (ih _ hs.2) hs.1
    · exact le_refl _

lemma buildFold_acc_mem (grouped : List (String × List (String × PointWeatherMap))) :
    ∀ (rs : List Resort) (acc : List (String × ResortWeather) × List String),
      (∀ x ∈ acc.1, x ∈ (rs.foldl (buildResortStep grouped) acc).1) ∧
      (∀ x ∈ acc.2, x ∈ (rs.foldl (buildResortStep grouped) acc).2) := by
  intro rs
  induction rs with
  | nil => intro acc; exact ⟨fun x hx => hx, fun x hx => hx⟩
  | cons a as ih =>
    intro acc
    have hstep1 : ∀ x ∈ acc.1, x ∈ (buildResortStep grouped acc a).1 := by
      intro x hx
      simp only [buildResortStep]
      split_ifs
      · exact hx
      · exact List.mem_append_left _ hx
    have hstep2 : ∀ x ∈ acc.2, x ∈ (buildResortStep grouped acc a).2 := by
      intro x hx
      simp only [buildResortStep]
      split_ifs
      · exact List.mem_append_left _ hx
      · exact hx
    refine ⟨?_, ?_⟩
    · intro x hx
      exact (ih (buildResortStep grouped acc a)).1 x (hstep1 x hx)
    · intro x hx
      exact (ih (buildResortStep grouped acc a)).2 x (hstep2 x hx)

lemma buildFold_covers (grouped : List (String × List (String × PointWeatherMap))) :
    ∀ (rs : List Resort) (acc : List (String × ResortWeather) × List String) (r : Resort),
      r ∈ rs →
      (∃ w, (r.id, w) ∈ (rs.foldl (buildResortStep grouped) acc).1) ∨
      r.id ∈ (rs.foldl (buildResortStep grouped) acc).2 := by
  intro rs
  induction rs with
  | nil => intro acc r hr; cases hr
  | cons a as ih =>
    intro acc r hr
    rcases List.mem_cons.mp hr with rfl | hr'
    · rw [List.foldl_cons]
      by_cases hc : ((List.lookup "low" ((List.lookup r.id grouped).getD [])).getD []).isEmpty ∧
          ((List.lookup "high" ((List.lookup r.id grouped).getD [])).getD []).isEmpty
      · right
        refine (buildFold_acc_mem grouped as _).2 r.id ?_
        simp only [buildResortStep]
        rw [if_pos hc]
        exact List.mem_append_right _ (List.mem_singleton_self _)
      · left
        refine ⟨{ low := (List.lookup "low" ((List.lookup r.id grouped).getD [])).getD []
                  high := (List.lookup "high" ((List.lookup r.id grouped).getD [])).getD [] },
            (buildFold_acc_mem grouped as _).1 _ ?_⟩
        simp only [buildResortStep]
        rw [if_neg hc]
        exact List.mem_append_right _ (List.mem_singleton_self _)
    · rw [List.foldl_cons]
      exact ih _ r hr'

/-! ### Claim theorems: batch orchestration -/

/-- C5: the batch-size state machine starts at `DEFAULT_BATCH_SIZE = 40`; a
`UrlTooLong` outcome at size 40 shrinks to 20 and retries the same point
range (the loop index is unchanged), at 20 it shrinks to 10, and at 10 it
marks every point of the current batch failed and advances past it leaving
the size at 10; over any outcome trace the size never increases. -/
theorem C5_adaptive_batch_sizing (allPoints : List BatchPoint) (st : FetchLoopState)
    (resorts : List Resort) (outcomes : List BatchOutcome) :
    DEFAULT_BATCH_SIZE = 40 ∧ FALLBACK_BATCH_SIZES = [20, 10] ∧
    fetch_all_resorts_weather resorts outcomes =
      buildFetchResult resorts (fetchLoop (allPointsOf resorts) outcomes
        { i := 0, batchSize := 40, allWeather := [], allFailed := [], nBatches := 0 }) ∧
    (st.i < allPoints.length → st.batchSize = 40 →
      fetchStep allPoints st .urlTooLong = { st with batchSize := 20 }) ∧
    (st.i < allPoints.length → st.batchSize = 20 →
      fetchStep allPoints st .urlTooLong = { st with batchSize := 10 }) ∧
    (st.i < allPoints.length → st.batchSize = 10 →
      fetchStep allPoints st .urlTooLong =
        { st with
          allFailed := st.allFailed ++
            ((allPoints.drop st.i).take 10).map (fun p => p.index)
          i := st.i + ((allPoints.drop st.i).take 10).length }) ∧
    (st.batchSize = 40 ∨ st.batchSize = 20 ∨ st.batchSize = 10 →
      (fetchLoop allPoints outcomes st).batchSize ≤ st.batchSize) :=
  ⟨rfl, rfl, rfl,
    fun hi h => fetchStep_urlTooLong_shrink40 hi h,
    fun hi h => fetchStep_urlTooLong_shrink20 hi h,
    fun hi h => fetchStep_urlTooLong_exhaust10 hi h,
    fun h => fetchLoop_batchSize_mono allPoints outcomes st h⟩

theorem C5_adaptive_batch_sizing_witness :
    fetchStep [{ resort_id := "a", point_type := "low", lat := 0, lon := 0, index := 0 }]
      { i := 0, batchSize := 40, allWeather := [], allFailed := [], nBatches := 0 }
      .urlTooLong =
    { i := 0, batchSize := 20, allWeather := [], allFailed := [], nBatches := 0 } :=
  (C5_adaptive_batch_sizing
    [{ resort_id := "a", point_type := "low", lat := 0, lon := 0, index := 0 }]
    { i := 0, batchSize := 40, allWeather := [], allFailed := [], nBatches := 0 }
    [] []).2.2.2.1 (by norm_num) rfl

/-- C6: a batch failing with a non-UrlTooLong error (`RuntimeError`: retries
exhausted or fatal HTTP status) marks every point of that batch failed and
advances to the next batch with the batch size unchanged; and the
orchestrator never raises — it always returns a `FetchResult` in which every
resort either carries weather or is listed in `failed_resorts`. -/
theorem C6_batch_failure_handling (allPoints : List BatchPoint) (st : FetchLoopState)
    (resorts : List Resort) (outcomes : List BatchOutcome) :
    fetchStep allPoints st .runtimeError =
      { st with
        allFailed := st.allFailed ++
          ((allPoints.drop st.i).take st.batchSize).map (fun p => p.index)
        nBatches := st.nBatches + 1
        i := st.i + ((allPoints.drop st.i).take st.batchSize).length } ∧
    ∀ r ∈ resorts,
      (∃ w, (r.id, w) ∈ (fetch_all_resorts_weather resorts outcomes).weather) ∨
      r.id ∈ (fetch_all_resorts_weather resorts outcomes).failed_resorts := by
  refine ⟨fetchStep_runtimeError allPoints st, ?_⟩
  intro r hr
  unfold fetch_all_resorts_weather buildFetchResult
  dsimp only
  exact buildFold_covers _ resorts ([], []) r hr

theorem C6_batch_failure_handling_witness :
    (∃ w, ("a", w) ∈ (fetch_all_resorts_weather
        [{ id := "a", name := "A", point_low := { lat := 0, lon := 0 }, point_high := { lat := 0, lon := 0 } }] []).weather) ∨
    "a" ∈ (fetch_all_resorts_weather
        [{ id := "a", name := "A", point_low := { lat := 0, lon := 0 }, point_high := { lat := 0, lon := 0 } }] []).failed_resorts :=
  (C6_batch_failure_handling []
    { i := 0, batchSize := 40, allWeather := [], allFailed := [], nBatches := 0 }
    [{ id := "a", name := "A", point_low := { lat := 0, lon := 0 }, point_high := { lat := 0, lon := 0 } }] []).2 _ (List.mem_singleton_self _)

lemma batchPairStep_fold (l : List (BatchPoint × PayloadResult)) :
    ∀ acc : List (Nat × PointWeatherMap) × List Nat,
      l.foldl batchPairStep acc =
        (acc.1 ++ batchSuccessesOf l, acc.2 ++ batchFailuresOf l) := by
  induction l with
  | nil => intro acc; simp [batchSuccessesOf, batchFailuresOf]
  | cons p rest ih =>
    intro acc
    obtain ⟨bp, pr⟩ := p
    cases pr with
    | absent =>
      rw [List.foldl_cons]
      show rest.foldl batchPairStep (acc.1, acc.2 ++ [bp.index]) = _
      rw [ih]
      simp [batchSuccessesOf, batchFailuresOf]
    | parseError =>
      rw [List.foldl_cons]
      show rest.foldl batchPairStep (acc.1, acc.2 ++ [bp.index]) = _
      rw [ih]
      simp [batchSuccessesOf, batchFailuresOf]
    | parsed w =>
      rw [List.foldl_cons]
      by_cases hw : w.isEmpty
      · have hw' : w = [] := by rwa [List.isEmpty_iff] at hw
        subst hw'
        show rest.foldl batchPairStep (batchPairStep acc (bp, .parsed [])) = _
        rw [show batchPairStep acc (bp, .parsed []) = (acc.1, acc.2 ++ [bp.index]) by
          simp [batchPairStep]]
        rw [ih]
        simp [batchSuccessesOf, batchFailuresOf]
      · show rest.foldl batchPairStep (batchPairStep acc (bp, .parsed w)) = _
        rw [show batchPairStep acc (bp, .parsed w) = (acc.1 ++ [(bp.index, w)], acc.2) by
          simp [batchPairStep, hw]]
        rw [ih]
        simp only [batchSuccessesOf, batchFailuresOf, List.filterMap_cons]
        rw [if_neg hw, if_neg hw]
        simp

lemma fetchBatchProcess_eq (points : List BatchPoint) (responses : List PayloadResult) :
    fetchBatchProcess points responses =
      (batchSuccessesOf ((points.take responses.length).zip responses),
       (if responses.length < points.length
        then (points.drop responses.length).map (fun p => p.index) else []) ++
         batchFailuresOf ((points.take responses.length).zip responses)) := by
  unfold fetchBatchProcess
  dsimp only
  rw [batchPairStep_fold]
  simp

/-- C8: per-point failure isolation in `_fetch_batch`.  A response shorter
than the point list fails exactly the trailing unmatched points while the
matched ones are processed exactly as a full-length batch of themselves
would be; and each matched point's fate depends only on its own payload: a
parsed non-empty dict lands in the success map, a falsy/parse-failed/empty
payload puts just that point's index among the failures. -/
theorem C8_per_point_isolation (points : List BatchPoint)
    (responses : List PayloadResult) (j : Nat) (w : PointWeatherMap) :
    (responses.length < points.length →
      (fetchBatchProcess points responses).1 =
        (fetchBatchProcess (points.take responses.length) responses).1 ∧
      (fetchBatchProcess points responses).2 =
        (points.drop responses.length).map (fun p => p.index) ++
          (fetchBatchProcess (points.take responses.length) responses).2) ∧
    (∀ (hj : j < points.length) (hjr : j < responses.length),
      (responses[j] = PayloadResult.parsed w → w ≠ [] →
        (points[j].index, w) ∈ (fetchBatchProcess points responses).1) ∧
      ((responses[j] = PayloadResult.absent ∨ responses[j] = PayloadResult.parseError ∨
          responses[j] = PayloadResult.parsed []) →
        points[j].index ∈ (fetchBatchProcess points responses).2)) := by
  constructor
  · intro hlt
    rw [fetchBatchProcess_eq, fetchBatchProcess_eq]
    have ht : (points.take responses.length).take responses.length =
        points.take responses.length := by
      rw [List.take_take, min_self]
    have hlen : (points.take responses.length).length = responses.length := by
      rw [List.length_take]
      omega
    constructor
    · rw [ht]
    · rw [ht, if_pos hlt, if_neg (by omega), List.nil_append]
  · intro hj hjr
    have hjz : j < ((points.take responses.length).zip responses).length := by
      rw [List.length_zip, List.length_take]
      omega
    have hzj : ((points.take responses.length).zip responses)[j] =
        (points[j], responses[j]) := by
      rw [List.getElem_zip]
      congr 1
      rw [List.getElem_take]
    constructor
    · intro hr hw
      rw [fetchBatchProcess_eq]
      show _ ∈ batchSuccessesOf _
      unfold batchSuccessesOf
      rw [List.mem_filterMap]
      refine ⟨(points[j], responses[j]), ?_, ?_⟩
      · rw [← hzj]
        exact List.getElem_mem hjz
      · rw [hr]
        simp only
        rw [if_neg (by simpa [List.isEmpty_iff] using hw)]
    · intro hr
      rw [fetchBatchProcess_eq]
      show _ ∈ _ ++ batchFailuresOf _
      refine List.mem_append_right _ ?_
      unfold batchFailuresOf
      rw [List.mem_filterMap]
      refine ⟨(points[j], responses[j]), ?_, ?_⟩
      · rw [← hzj]
        exact List.getElem_mem hjz
      · rcases hr with hr | hr | hr <;> (rw [hr]; try simp)

theorem C8_per_point_isolation_witness :
    ({ resort_id := "a", point_type := "low", lat := 0, lon := 0, index := 7 } :
        BatchPoint).index ∈
      (fetchBatchProcess
        [{ resort_id := "a", point_type := "low", lat := 0, lon := 0, index := 7 }]
        [PayloadResult.absent]).2 :=
  ((C8_per_point_isolation
      [{ resort_id := "a", point_type := "low", lat := 0, lon := 0, index := 7 }]
      [PayloadResult.absent] 0 []).2 (by norm_num) (by norm_num)).2 (Or.inl rfl)

/-! ### Lemmas for the resort reassembly (C7) -/

lemma allPointsOf_fold (rs : List Resort) :
    ∀ acc : List BatchPoint,
      rs.foldl allPointsStep acc = acc ++ flatPointsFrom acc.length rs := by
  induction rs with
  | nil => intro acc; simp [flatPointsFrom]
  | cons r rs ih =>
    intro acc
    rw [List.foldl_cons, ih]
    have hlen : (allPointsStep acc r).length = acc.length + 2 := by
      simp [allPointsStep]
    rw [hlen]
    show allPointsStep acc r ++ flatPointsFrom (acc.length + 2) rs = _
    simp only [allPointsStep, flatPointsFrom, List.append_assoc, List.singleton_append,
      List.cons_append, List.nil_append, List.length_append, List.length_cons,
      List.length_nil, Nat.add_zero, Nat.zero_add]

lemma allPointsOf_eq (resorts : List Resort) :
    allPointsOf resorts = flatPointsFrom 0 resorts := by
  rw [allPointsOf, allPointsOf_fold]
  rfl

lemma flatPointsFrom_length (rs : List Resort) :
    ∀ n : Nat, (flatPointsFrom n rs).length = 2 * rs.length := by
  induction rs with
  | nil => intro n; rfl
  | cons r rs ih =>
    intro n
    show (flatPointsFrom (n + 2) rs).length + 1 + 1 = 2 * (rs.length + 1)
    rw [ih]
    omega

lemma flatPointsFrom_find_low (rs : List Resort) :
    ∀ (n k : Nat) (hk : k < rs.length),
      (flatPointsFrom n rs).find? (fun p => p.index == n + 2 * k) =
        some { resort_id := rs[k].id, point_type := "low", lat := rs[k].point_low.lat,
               lon := rs[k].point_low.lon, index := n + 2 * k } := by
  induction rs with
  | nil => intro n k hk; cases hk
  | cons r rs ih =>
    intro n k hk
    cases k with
    | zero =>
      show List.find? _ (_ :: _) = _
      rw [List.find?_cons_of_pos _ (by simp)]
      simp
    | succ k =>
      show List.find? _ (_ :: _ :: flatPointsFrom (n + 2) rs) = _
      rw [List.find?_cons_of_neg _ (by simp)]
      rw [List.find?_cons_of_neg _ (by simp; omega)]
      have h2 : n + 2 * (k + 1) = (n + 2) + 2 * k := by omega
      rw [h2, ih (n + 2) k (by simpa using Nat.lt_of_succ_lt_succ hk)]
      simp

lemma flatPointsFrom_find_high (rs : List Resort) :
    ∀ (n k : Nat) (hk : k < rs.length),
      (flatPointsFrom n rs).find? (fun p => p.index == n + 2 * k + 1) =
        some { resort_id := rs[k].id, point_type := "high", lat := rs[k].point_high.lat,
               lon := rs[k].point_high.lon, index := n + 2 * k + 1 } := by
  induction rs with
  | nil => intro n k hk; cases hk
  | cons r rs ih =>
    intro n k hk
    cases k with
    | zero =>
      show List.find? _ (_ :: _ :: flatPointsFrom (n + 2) rs) = _
      rw [List.find?_cons_of_neg _ (by simp)]
      rw [List.find?_cons_of_pos _ (by simp)]
      simp
    | succ k =>
      show List.find? _ (_ :: _ :: flatPointsFrom (n + 2) rs) = _
      rw [List.find?_cons_of_neg _ (by simp; omega)]
      rw [List.find?_cons_of_neg _ (by simp)]
      have h2 : n + 2 * (k + 1) + 1 = (n + 2) + 2 * k + 1 := by omega
      rw [h2, ih (n + 2) k (by simpa using Nat.lt_of_succ_lt_succ hk)]
      simp

lemma lookup_updateAssoc_self {β : Type} (m : List (String × β)) (k : String) (v : β) :
    List.lookup k (updateAssoc m k v) = some v := by
  induction m with
  | nil => simp [updateAssoc, List.lookup]
  | cons a rest ih =>
    obtain ⟨k', v'⟩ := a
    by_cases h : k' = k
    · subst h
      simp [updateAssoc, List.lookup_cons]
    · simp only [updateAssoc, if_neg h, List.lookup_cons]
      have hkk : (k == k') = false := by
        simp [beq_eq_false_iff_ne]
        exact fun hc => h hc.symm
      rw [hkk]
      exact ih

lemma lookup_updateAssoc_ne {β : Type} (m : List (String × β)) {k q : String}
    (h : q ≠ k) (v : β) :
    List.lookup q (updateAssoc m k v) = List.lookup q m := by
  induction m with
  | nil =>
    simp [updateAssoc, List.lookup_cons, List.lookup]
    have : (q == k) = false := by simp [beq_eq_false_iff_ne, h]
    rw [this]
  | cons a rest ih =>
    obtain ⟨k', v'⟩ := a
    by_cases hk : k' = k
    · subst hk
      have hq : (q == k') = false := by simp [beq_eq_false_iff_ne, h]
      show List.lookup q
          (if k' = k' then (k', v) :: rest else (k', v') :: updateAssoc rest k' v) =
        List.lookup q ((k', v') :: rest)
      rw [if_pos rfl, List.lookup_cons, List.lookup_cons, hq]
    · simp only [updateAssoc, if_neg hk, List.lookup_cons]
      cases hqk : q == k' <;> simp [ih]

lemma lookup_snoc_ne {α β : Type} [BEq α] [LawfulBEq α] (l : List (α × β)) {a k : α}
    (h : a ≠ k) (v : β) : List.lookup a (l ++ [(k, v)]) = List.lookup a l := by
  induction l with
  | nil =>
    have : (a == k) = false := by simp [beq_eq_false_iff_ne, h]
    simp [List.lookup_cons, List.lookup, this]
  | cons p rest ih =>
    obtain ⟨k', v'⟩ := p
    rw [List.cons_append, List.lookup_cons, List.lookup_cons]
    cases hak : a == k' <;> simp [ih]

lemma lookup_snoc_new {α β : Type} [BEq α] [LawfulBEq α] (l : List (α × β)) {a : α}
    (h : a ∉ l.map Prod.fst) (v : β) : List.lookup a (l ++ [(a, v)]) = some v := by
  induction l with
  | nil => simp [List.lookup_cons, List.lookup]
  | cons p rest ih =>
    obtain ⟨k', v'⟩ := p
    rw [List.cons_append, List.lookup_cons]
    simp only [List.map_cons, List.mem_cons] at h
    push_neg at h
    have ha : (a == k') = false := by simp [beq_eq_false_iff_ne, h.1]
    rw [ha]
    exact ih h.2

lemma mem_of_lookup {α β : Type} [BEq α] [LawfulBEq α] :
    ∀ {l : List (α × β)} {a : α} {w : β}, List.lookup a l = some w → (a, w) ∈ l := by
  intro l
  induction l with
  | nil => intro a w h; cases h
  | cons p rest ih =>
    intro a w h
    obtain ⟨k', v'⟩ := p
    rw [List.lookup_cons] at h
    cases hak : a == k' <;> rw [hak] at h
    · exact List.mem_cons_of_mem _ (ih h)
    · have ha : a = k' := by simpa using hak
      cases h
      subst ha
      exact List.mem_cons_self _ _

lemma lookup_eq_none_of_not_mem {α β : Type} [BEq α] [LawfulBEq α]
    {l : List (α × β)} {a : α} (h : a ∉ l.map Prod.fst) : List.lookup a l = none := by
  induction l with
  | nil => rfl
  | cons p rest ih =>
    obtain ⟨k', v'⟩ := p
    simp only [List.map_cons, List.mem_cons] at h
    push_neg at h
    rw [List.lookup_cons]
    have ha : (a == k') = false := by simp [beq_eq_false_iff_ne, h.1]
    rw [ha]
    exact ih h.2

lemma resort_id_inj (resorts : List Resort)
    (hids : (resorts.map (fun r => r.id)).Nodup)
    {k j : Nat} (hk : k < resorts.length) (hj : j < resorts.length)
    (h : resorts[k].id = resorts[j].id) : k = j := by
  have hinj := List.nodup_iff_injective_get.mp hids
  have h1 : (resorts.map (fun r => r.id)).get ⟨k, by simpa using hk⟩ =
      (resorts.map (fun r => r.id)).get ⟨j, by simpa using hj⟩ := by
    simp only [List.get_eq_getElem, List.getElem_map]
    exact h
  have h2 := hinj h1
  simpa using h2

lemma groupWeather_lookup (resorts : List Resort)
    (hids : (resorts.map (fun r => r.id)).Nodup) :
    ∀ aw : List (Nat × PointWeatherMap),
      (aw.map Prod.fst).Nodup →
      (∀ p ∈ aw, p.1 < 2 * resorts.length) →
      ∀ (k : Nat) (hk : k < resorts.length),
        List.lookup "low" ((List.lookup resorts[k].id
            (groupWeatherByResort (allPointsOf resorts) aw)).getD []) =
          List.lookup (2 * k) aw ∧
        List.lookup "high" ((List.lookup resorts[k].id
            (groupWeatherByResort (allPointsOf resorts) aw)).getD []) =
          List.lookup (2 * k + 1) aw := by
  intro aw
  induction aw using List.reverseRecOn with
  | nil =>
    intro _ _ k hk
    constructor <;> simp [groupWeatherByResort, List.lookup]
  | append_singleton aw x ih =>
    obtain ⟨i0, w0⟩ := x
    intro hkeys hidx k hk
    have hmap : ((aw ++ [(i0, w0)]).map Prod.fst) = aw.map Prod.fst ++ [i0] := by
      rw [List.map_append]
      rfl
    rw [hmap] at hkeys
    rw [List.nodup_append] at hkeys
    have hkeys' : (aw.map Prod.fst).Nodup := hkeys.1
    have hi0notin : i0 ∉ aw.map Prod.fst := fun hc =>
      hkeys.2.2 hc (List.mem_singleton_self _)
    have hidx' : ∀ p ∈ aw, p.1 < 2 * resorts.length := fun p hp =>
      hidx p (List.mem_append_left _ hp)
    have hi0lt : i0 < 2 * resorts.length :=
      hidx (i0, w0) (List.mem_append_right _ (List.mem_singleton_self _))
    have ihk := ih hkeys' hidx' k hk
    have hg : groupWeatherByResort (allPointsOf resorts) (aw ++ [(i0, w0)]) =
        (match (allPointsOf resorts).find? (fun p => p.index == i0) with
         | some p =>
           updateAssoc (groupWeatherByResort (allPointsOf resorts) aw) p.resort_id
             (updateAssoc ((List.lookup p.resort_id
                 (groupWeatherByResort (allPointsOf resorts) aw)).getD []) p.point_type w0)
         | none => groupWeatherByResort (allPointsOf resorts) aw) := by
      unfold groupWeatherByResort
      rw [List.foldl_append]
      rfl
    rcases Nat.even_or_odd i0 with ⟨k0, hk0⟩ | ⟨k0, hk0⟩
    · -- i0 is even: it indexes the low point of resort k0
      have hk0lt : k0 < resorts.length := by omega
      have hfind : (allPointsOf resorts).find? (fun p => p.index == i0) =
          some { resort_id := resorts[k0].id, point_type := "low",
                 lat := resorts[k0].point_low.lat, lon := resorts[k0].point_low.lon,
                 index := 0 + 2 * k0 } := by
        rw [allPointsOf_eq, show i0 = 0 + 2 * k0 from by omega]
        exact flatPointsFrom_find_low resorts 0 k0 hk0lt
      rw [hg, hfind]
      dsimp only
      by_cases hkk : resorts[k].id = resorts[k0].id
      · have hkeq : k = k0 := resort_id_inj resorts hids hk hk0lt hkk
        subst hkeq
        rw [lookup_updateAssoc_self]
        constructor
        · show List.lookup "low" (updateAssoc _ "low" w0) = _
          rw [lookup_updateAssoc_self,
            show (2 * k : Nat) = i0 from by omega,
            lookup_snoc_new aw hi0notin]
        · show List.lookup "high" (updateAssoc _ "low" w0) = _
          rw [lookup_updateAssoc_ne _ (by decide) w0,
            lookup_snoc_ne aw (by omega : (2 * k + 1 : Nat) ≠ i0)]
          exact ihk.2
      · rw [lookup_updateAssoc_ne _ hkk]
        have hne1 : (2 * k : Nat) ≠ i0 := by
          intro hc
          have hkeq : k = k0 := by omega
          exact hkk (hkeq ▸ rfl)
        have hne2 : (2 * k + 1 : Nat) ≠ i0 := by omega
        rw [lookup_snoc_ne aw hne1, lookup_snoc_ne aw hne2]
        exact ihk
    · -- i0 is odd: it indexes the high point of resort k0
      have hk0lt : k0 < resorts.length := by omega
      have hfind : (allPointsOf resorts).find? (fun p => p.index == i0) =
          some { resort_id := resorts[k0].id, point_type := "high",
                 lat := resorts[k0].point_high.lat, lon := resorts[k0].point_high.lon,
                 index := 0 + 2 * k0 + 1 } := by
        rw [allPointsOf_eq, show i0 = 0 + 2 * k0 + 1 from by omega]
        exact flatPointsFrom_find_high resorts 0 k0 hk0lt
      rw [hg, hfind]
      dsimp only
      by_cases hkk : resorts[k].id = resorts[k0].id
      · have hkeq : k = k0 := resort_id_inj resorts hids hk hk0lt hkk
        subst hkeq
        rw [lookup_updateAssoc_self]
        constructor
        · show List.lookup "low" (updateAssoc _ "high" w0) = _
          rw [lookup_updateAssoc_ne _ (by decide) w0,
            lookup_snoc_ne aw (by omega : (2 * k : Nat) ≠ i0)]
          exact ihk.1
        · show List.lookup "high" (updateAssoc _ "high" w0) = _
          rw [lookup_updateAssoc_self,
            show (2 * k + 1 : Nat) = i0 from by omega,
            lookup_snoc_new aw hi0notin]
      · rw [lookup_updateAssoc_ne _ hkk]
        have hne1 : (2 * k : Nat) ≠ i0 := by omega
        have hne2 : (2 * k + 1 : Nat) ≠ i0 := by
          intro hc
          have hkeq : k = k0 := by omega
          exact hkk (hkeq ▸ rfl)
        rw [lookup_snoc_ne aw hne1, lookup_snoc_ne aw hne2]
        exact ihk

lemma buildFold_filterMap (grouped : List (String × List (String × PointWeatherMap))) :
    ∀ (rs : List Resort) (acc : List (String × ResortWeather) × List String),
      rs.foldl (buildResortStep grouped) acc =
        (acc.1 ++ rs.filterMap (fun r =>
            if ((List.lookup "low" ((List.lookup r.id grouped).getD [])).getD []).isEmpty ∧
                ((List.lookup "high" ((List.lookup r.id grouped).getD [])).getD []).isEmpty
            then none
            else some (r.id,
              { low := (List.lookup "low" ((List.lookup r.id grouped).getD [])).getD []
                high := (List.lookup "high" ((List.lookup r.id grouped).getD [])).getD [] })),
         acc.2 ++ rs.filterMap (fun r =>
            if ((List.lookup "low" ((List.lookup r.id grouped).getD [])).getD []).isEmpty ∧
                ((List.lookup "high" ((List.lookup r.id grouped).getD [])).getD []).isEmpty
            then some r.id else none)) := by
  intro rs
  induction rs with
  | nil => intro acc; simp
  | cons a as ih =>
    intro acc
    rw [List.foldl_cons, ih]
    by_cases hc :
        ((List.lookup "low" ((List.lookup a.id grouped).getD [])).getD []).isEmpty ∧
        ((List.lookup "high" ((List.lookup a.id grouped).getD [])).getD []).isEmpty
    · rw [show buildResortStep grouped acc a = (acc.1, acc.2 ++ [a.id]) from by
        simp only [buildResortStep]; rw [if_pos hc]]
      simp only [List.filterMap_cons]
      rw [if_pos hc, if_pos hc]
      simp [List.append_assoc]
    · rw [show buildResortStep grouped acc a =
          (acc.1 ++ [(a.id,
            { low := (List.lookup "low" ((List.lookup a.id grouped).getD [])).getD []
              high := (List.lookup "high" ((List.lookup a.id grouped).getD [])).getD [] })],
           acc.2) from by
        simp only [buildResortStep]; rw [if_neg hc]]
      simp only [List.filterMap_cons]
      rw [if_neg hc, if_neg hc]
      simp [List.append_assoc]

/-! ### Claim theorem: resort-level failure aggregation (C7) -/

/-- C7: in the `FetchResult`, a resort is listed in `failed_resorts` iff
neither its low point (batch index `2k`) nor its high point (index `2k+1`)
produced usable weather; a resort with exactly one usable point is kept in
the weather map with that side populated and the other side empty (and one
with both sides keeps both).  Hypotheses: resort ids are distinct, the
success map has distinct keys that all designate flattened points, and every
stored weather dict is non-empty (which `_fetch_batch` guarantees, since it
only records non-empty parses). -/
theorem C7_failed_resorts_iff (resorts : List Resort) (st : FetchLoopState)
    (k : Nat) (hk : k < resorts.length)
    (hids : (resorts.map (fun r => r.id)).Nodup)
    (hkeys : (st.allWeather.map Prod.fst).Nodup)
    (hval : ∀ p ∈ st.allWeather, p.2 ≠ ([] : PointWeatherMap))
    (hidx : ∀ p ∈ st.allWeather, p.1 < 2 * resorts.length) :
    (resorts[k].id ∈ (buildFetchResult resorts st).failed_resorts ↔
      List.lookup (2 * k) st.allWeather = none ∧
      List.lookup (2 * k + 1) st.allWeather = none) ∧
    (∀ w, List.lookup (2 * k) st.allWeather = some w →
      List.lookup (2 * k + 1) st.allWeather = none →
      (resorts[k].id, { low := w, high := [] }) ∈ (buildFetchResult resorts st).weather) ∧
    (∀ w, List.lookup (2 * k) st.allWeather = none →
      List.lookup (2 * k + 1) st.allWeather = some w →
      (resorts[k].id, { low := [], high := w }) ∈ (buildFetchResult resorts st).weather) := by
  have hgl := groupWeather_lookup resorts hids st.allWeather hkeys hidx k hk
  have hbuild : buildFetchResult resorts st =
      { weather := ([] : List (String × ResortWeather)) ++ resorts.filterMap (fun r =>
          if ((List.lookup "low" ((List.lookup r.id
                (groupWeatherByResort (allPointsOf resorts) st.allWeather)).getD [])).getD
                []).isEmpty ∧
              ((List.lookup "high" ((List.lookup r.id
                (groupWeatherByResort (allPointsOf resorts) st.allWeather)).getD [])).getD
                []).isEmpty
          then none
          else some (r.id,
            { low := (List.lookup "low" ((List.lookup r.id
                (groupWeatherByResort (allPointsOf resorts) st.allWeather)).getD [])).getD []
              high := (List.lookup "high" ((List.lookup r.id
                (groupWeatherByResort (allPointsOf resorts) st.allWeather)).getD [])).getD [] }))
        failed_resorts := ([] : List String) ++ resorts.filterMap (fun r =>
          if ((List.lookup "low" ((List.lookup r.id
                (groupWeatherByResort (allPointsOf resorts) st.allWeather)).getD [])).getD
                []).isEmpty ∧
              ((List.lookup "high" ((List.lookup r.id
                (groupWeatherByResort (allPointsOf resorts) st.allWeather)).getD [])).getD
                []).isEmpty
          then some r.id else none)
        n_points_total := (allPointsOf resorts).length
        n_points_success := st.allWeather.length
        n_batches := st.nBatches } := by
    unfold buildFetchResult
    dsimp only
    rw [buildFold_filterMap]
  rw [hbuild]
  dsimp only
  simp only [List.nil_append]
  refine ⟨?_, ?_, ?_⟩
  · constructor
    · intro hmem
      rw [List.mem_filterMap] at hmem
      obtain ⟨r', hr', hf⟩ := hmem
      split_ifs at hf with hc
      · have hid : r'.id = resorts[k].id := by
          injection hf
        have hreq : r' = resorts[k] :=
          List.inj_on_of_nodup_map hids hr' (List.getElem_mem hk) hid
        subst hreq
        rw [hgl.1, hgl.2] at hc
        constructor
        · cases hlk : List.lookup (2 * k) st.allWeather with
          | none => rfl
          | some w =>
            rw [hlk] at hc
            have hw := hval (2 * k, w) (mem_of_lookup hlk)
            simp only [Option.getD_some, List.isEmpty_iff] at hc
            exact absurd hc.1 hw
        · cases hlk : List.lookup (2 * k + 1) st.allWeather with
          | none => rfl
          | some w =>
            rw [hlk] at hc
            have hw := hval (2 * k + 1, w) (mem_of_lookup hlk)
            simp only [Option.getD_some, List.isEmpty_iff] at hc
            exact absurd hc.2 hw
    · rintro ⟨h1, h2⟩
      rw [List.mem_filterMap]
      refine ⟨resorts[k], List.getElem_mem hk, ?_⟩
      rw [if_pos (by rw [hgl.1, hgl.2, h1, h2]; exact ⟨rfl, rfl⟩)]
  · intro w h1 h2
    rw [List.mem_filterMap]
    refine ⟨resorts[k], List.getElem_mem hk, ?_⟩
    rw [if_neg]
    · rw [hgl.1, hgl.2, h1, h2]
      rfl
    · rw [hgl.1, hgl.2, h1, h2]
      intro hc
      have hw := hval (2 * k, w) (mem_of_lookup h1)
      simp only [Option.getD_some, Option.getD_none, List.isEmpty_iff] at hc
      exact hw hc.1
  · intro w h1 h2
    rw [List.mem_filterMap]
    refine ⟨resorts[k], List.getElem_mem hk, ?_⟩
    rw [if_neg]
    · rw [hgl.1, hgl.2, h1, h2]
      rfl
    · rw [hgl.1, hgl.2, h1, h2]
      intro hc
      have hw := hval (2 * k + 1, w) (mem_of_lookup h2)
      simp only [Option.getD_some, Option.getD_none, List.isEmpty_iff] at hc
      exact hw hc.2

theorem C7_failed_resorts_iff_witness :
    ("a", ({ low := [(⟨2026, 1, 15⟩,
        ⟨⟨2026, 1, 15⟩, none, none, none, none, none, none, "missing"⟩)], high := [] } :
          ResortWeather)) ∈
      (buildFetchResult
        [{ id := "a", name := "A", point_low := { lat := 0, lon := 0 }, point_high := { lat := 0, lon := 0 } }]
        { i := 2, batchSize := 40,
          allWeather := [(0, [(⟨2026, 1, 15⟩,
            ⟨⟨2026, 1, 15⟩, none, none, none, none, none, none, "missing"⟩)])],
          allFailed := [1], nBatches := 1 }).weather :=
  (C7_failed_resorts_iff
    [{ id := "a", name := "A", point_low := { lat := 0, lon := 0 }, point_high := { lat := 0, lon := 0 } }]
    { i := 2, batchSize := 40,
      allWeather := [(0, [(⟨2026, 1, 15⟩,
        ⟨⟨2026, 1, 15⟩, none, none, none, none, none, none, "missing"⟩)])],
      allFailed := [1], nBatches := 1 }
    0 (by norm_num) (by simp) (by simp)
    (by intro p hp; simp at hp; subst hp; simp)
    (by intro p hp; simp at hp; subst hp; norm_num)).2.1
    [(⟨2026, 1, 15⟩, ⟨⟨2026, 1, 15⟩, none, none, none, none, none, none, "missing"⟩)]
    rfl rfl

end SkiNotifier
